import Mathlib

/-!
Verification of the ReaderApp coordination core (study configuration lock
manager, session progression engine, crossover case allocator).

The definitions below are a shallow embedding of the Python services in
src/backend/app/services (study_config_service.py, study_session_service.py,
case_discovery_service.py) and of the thin router glue in
src/backend/app/routers/sessions.py.  Conventions of the embedding:

* SQLAlchemy rows become Lean structures; the database session becomes
  explicit state passing.  Transactions (BEGIN IMMEDIATE) serialize the
  state-transforming calls, so a "concurrent" pair of calls is modelled as
  the two possible serialization orders.
* Python `None`-able columns become `Option`; JSON-encoded list columns
  (case orders, completed cases) are modelled as the decoded lists, since
  the code always round-trips them through json.dumps/json.loads.
* Timestamps are abstract `Nat` instants supplied by the caller (the code
  reads the wall clock; no claim depends on actual time values).
* The float column ai_threshold is never computed with in this core, only
  stored and echoed; it is modelled as a `Nat` (value in hundredths).
* `random.shuffle` is modelled by explicit shuffle-function parameters;
  theorems that need it assume these produce permutations of their input.
* Python exceptions (ValueError / PermissionError / HTTPException) become
  `Except` with a structured error type; the error constructors record
  which raise site fired (the Korean message text is elided, but for lock
  violations the offending field name carried inside the message is kept,
  since claims quantify over it).
* JSON dict values (crossover mapping, group names) are association lists
  with first-match lookup, mirroring Python dict semantics for the
  operations the code performs (`in`, `[]`, `.get`).  The `sort_keys=True`
  canonicalization only reorders keys, so the stored mapping is modelled
  as the validated mapping itself.
-/

set_option synthInstance.maxSize 512

namespace ReaderApp

/-! ## Data model (src/backend/app/models/database.py) -/

/-- block key to mode string, e.g. [("block_A", "UNAIDED"), ("block_B", "AIDED")]. -/
abbrev BlockMap := List (String × String)

/-- session code to block map, e.g. keyed "S1", "S2". -/
abbrev SessionMap := List (String × BlockMap)

/-- group key to session map, e.g. keyed "group_1", "group_2". -/
abbrev CrossMap := List (String × SessionMap)

/-- DEFAULT_CROSSOVER_MAPPING from database.py (2x2x2 Latin square). -/
def DEFAULT_CROSSOVER_MAPPING : CrossMap :=
  [("group_1", [("S1", [("block_A", "UNAIDED"), ("block_B", "AIDED")]),
                ("S2", [("block_A", "AIDED"), ("block_B", "UNAIDED")])]),
   ("group_2", [("S1", [("block_A", "AIDED"), ("block_B", "UNAIDED")]),
                ("S2", [("block_A", "UNAIDED"), ("block_B", "AIDED")])])]

/-- DEFAULT_GROUP_NAMES from database.py. -/
def DEFAULT_GROUP_NAMES : List (String × String) :=
  [("group_1", "Group 1"), ("group_2", "Group 2")]

/-- StudyConfig row (singleton, id = 1).  Column defaults from database.py.
The display-only ratio-style strings are not modelled. -/
structure StudyConfig where
  total_sessions : Nat := 2
  total_blocks : Nat := 2
  total_groups : Nat := 2
  crossover_mapping : CrossMap := DEFAULT_CROSSOVER_MAPPING
  k_max : Nat := 3
  ai_threshold_pct : Nat := 30
  confidence_mode : String := "categorical"
  require_lesion_marking : Bool := true
  case_order_mode : String := "random"
  random_seed : Option Nat := none
  is_locked : Bool := false
  locked_at : Option Nat := none
  locked_by : Option Nat := none
  study_name : String := "Reader Study"
  study_description : Option String := none
  group_names : List (String × String) := DEFAULT_GROUP_NAMES
  updated_at : Nat := 0
deriving Repr, DecidableEq

/-- AuditLog row (only the fields the modelled code writes are kept). -/
structure AuditEntry where
  reader_id : Nat
  action : String
deriving Repr, DecidableEq

/-- Config-side database state: the singleton StudyConfig row plus the
audit log rows appended by the config service. -/
structure ConfigDB where
  config : StudyConfig := {}
  audit : List AuditEntry := []
deriving Repr, DecidableEq

/-! ## Config Lock Manager (study_config_service.py) -/

/-- LOCKED_FIELDS constant, in source order. -/
def LOCKED_FIELDS : List String :=
  ["total_sessions", "total_blocks", "total_groups",
   "crossover_mapping", "k_max", "require_lesion_marking"]

/-- A partial update payload for update_config: `some` models a key that is
present in the request dict with a non-None value (the code treats a missing
key and an explicit None identically). -/
structure UpdateData where
  total_sessions : Option Nat := none
  total_blocks : Option Nat := none
  total_groups : Option Nat := none
  crossover_mapping : Option CrossMap := none
  k_max : Option Nat := none
  require_lesion_marking : Option Bool := none
  ai_threshold_pct : Option Nat := none
  confidence_mode : Option String := none
  case_order_mode : Option String := none
  random_seed : Option Nat := none
  study_name : Option String := none
  study_description : Option String := none
  group_names : Option (List (String × String)) := none
deriving Repr, DecidableEq

/-- _validate_locked_fields: the locked fields supplied (non-None) in the
payload, in LOCKED_FIELDS order.  The Python version returns one message
string per field; each message is determined by the field name, so the
model keeps just the names. -/
def validate_locked_fields (data : UpdateData) : List String :=
  (if data.total_sessions.isSome then ["total_sessions"] else []) ++
  (if data.total_blocks.isSome then ["total_blocks"] else []) ++
  (if data.total_groups.isSome then ["total_groups"] else []) ++
  (if data.crossover_mapping.isSome then ["crossover_mapping"] else []) ++
  (if data.k_max.isSome then ["k_max"] else []) ++
  (if data.require_lesion_marking.isSome then ["require_lesion_marking"] else [])

/-- Structured stand-ins for the ValueError messages raised by
_validate_crossover_mapping. -/
inductive ValErr where
  | missing_group (g : String)
  | missing_session (g s : String)
  | missing_block (g s b : String)
  | invalid_mode (g s b mode : String)
deriving Repr, DecidableEq

def required_groups : List String := ["group_1", "group_2"]
def required_sessions : List String := ["S1", "S2"]
def required_blocks : List String := ["block_A", "block_B"]
def valid_modes : List String := ["UNAIDED", "AIDED"]

/-- Innermost loop of _validate_crossover_mapping: check the listed block
keys of one (group, session) entry. -/
def check_blocks (g s : String) (bm : BlockMap) : List String → Except ValErr Unit
  | [] => .ok ()
  | b :: rest =>
    match bm.lookup b with
    | none => .error (.missing_block g s b)
    | some mode =>
      if mode ∈ valid_modes then check_blocks g s bm rest
      else .error (.invalid_mode g s b mode)

/-- Middle loop of _validate_crossover_mapping: check the listed session
codes of one group entry. -/
def check_sessions (g : String) (gm : SessionMap) : List String → Except ValErr Unit
  | [] => .ok ()
  | s :: rest =>
    match gm.lookup s with
    | none => .error (.missing_session g s)
    | some bm =>
      match check_blocks g s bm required_blocks with
      | .error e => .error e
      | .ok _ => check_sessions g gm rest

/-- Outer loop of _validate_crossover_mapping over the required groups. -/
def check_groups (m : CrossMap) : List String → Except ValErr Unit
  | [] => .ok ()
  | g :: rest =>
    match m.lookup g with
    | none => .error (.missing_group g)
    | some gm =>
      match check_sessions g gm required_sessions with
      | .error e => .error e
      | .ok _ => check_groups m rest

/-- _validate_crossover_mapping: checks that every required group, session
code and block key is present with a valid mode, then returns the mapping
unchanged.  (Note: it never looks at keys outside the required lists.) -/
def validate_crossover_mapping (mapping : CrossMap) : Except ValErr CrossMap :=
  match check_groups mapping required_groups with
  | .error e => .error e
  | .ok _ => .ok mapping

/-- Structured stand-ins for the ValueError messages raised by
_validate_group_names. -/
inductive GNamesErr where
  | keys_mismatch
  | empty_name (k : String)
  | too_long (k : String)
deriving Repr, DecidableEq

/-- Per-entry value checks of _validate_group_names, in iteration order. -/
def check_group_name_values : List (String × String) → Except GNamesErr Unit
  | [] => .ok ()
  | (k, v) :: rest =>
    if v.trim.length = 0 then .error (.empty_name k)
    else if 50 < v.length then .error (.too_long k)
    else check_group_name_values rest

/-- _validate_group_names: key set must equal the crossover mapping's group
key set, every value nonempty (after strip) and at most 50 characters. -/
def validate_group_names (group_names : List (String × String)) (mapping : CrossMap) :
    Except GNamesErr (List (String × String)) :=
  if (group_names.map Prod.fst).all (fun k => k ∈ mapping.map Prod.fst) ∧
     (mapping.map Prod.fst).all (fun k => k ∈ group_names.map Prod.fst) then
    match check_group_name_values group_names with
    | .error e => .error e
    | .ok _ => .ok group_names
  else .error .keys_mismatch

/-- The HTTPException outcomes of update_config.  A lock violation carries
the first offending message, whose text names exactly one field
(detail=errors[0] in the source); the model keeps that field name. -/
inductive UpdErr where
  | locked_field (f : String)
  | bad_mapping (e : ValErr)
  | bad_group_names (e : GNamesErr)
deriving Repr, DecidableEq

/-- The setattr loop of update_config: every supplied (non-None) field is
written onto the config row; updated_at is refreshed. -/
def update_config_apply (cfg : StudyConfig) (data : UpdateData) (now : Nat) : StudyConfig :=
  { cfg with
    total_sessions := data.total_sessions.getD cfg.total_sessions
    total_blocks := data.total_blocks.getD cfg.total_blocks
    total_groups := data.total_groups.getD cfg.total_groups
    crossover_mapping := data.crossover_mapping.getD cfg.crossover_mapping
    k_max := data.k_max.getD cfg.k_max
    require_lesion_marking := data.require_lesion_marking.getD cfg.require_lesion_marking
    ai_threshold_pct := data.ai_threshold_pct.getD cfg.ai_threshold_pct
    confidence_mode := data.confidence_mode.getD cfg.confidence_mode
    case_order_mode := data.case_order_mode.getD cfg.case_order_mode
    random_seed := match data.random_seed with
      | some v => some v
      | none => cfg.random_seed
    study_name := data.study_name.getD cfg.study_name
    study_description := match data.study_description with
      | some v => some v
      | none => cfg.study_description
    group_names := data.group_names.getD cfg.group_names
    updated_at := now }

/-- Crossover-mapping validation step of update_config (runs only when the
field is supplied). -/
def update_config_vmap (cfg : StudyConfig) (data : UpdateData) (now : Nat) :
    Except UpdErr StudyConfig :=
  match data.crossover_mapping with
  | some m =>
    match validate_crossover_mapping m with
    | .error e => .error (.bad_mapping e)
    | .ok _ =>
      match data.group_names with
      | some ns =>
        match validate_group_names ns cfg.crossover_mapping with
        | .error e => .error (.bad_group_names e)
        | .ok _ => .ok (update_config_apply cfg data now)
      | none => .ok (update_config_apply cfg data now)
  | none =>
    match data.group_names with
    | some ns =>
      match validate_group_names ns cfg.crossover_mapping with
      | .error e => .error (.bad_group_names e)
      | .ok _ => .ok (update_config_apply cfg data now)
    | none => .ok (update_config_apply cfg data now)

/-- update_config: inside one exclusive transaction, first rejects locked
fields when the config is locked (raising on errors[0]), then validates a
supplied crossover mapping and supplied group names (against the stored
mapping), then applies every supplied field.  On any error the transaction
rolls back, so the error result carries no new state. -/
def update_config (cfg : StudyConfig) (data : UpdateData) (now : Nat) :
    Except UpdErr StudyConfig :=
  if cfg.is_locked then
    match validate_locked_fields data with
    | f :: _ => .error (.locked_field f)
    | [] => update_config_vmap cfg data now
  else update_config_vmap cfg data now

/-- trigger_lock_if_needed: inside one exclusive transaction (BEGIN
IMMEDIATE), reads the lock flag; if already locked rolls back and returns
false with no side effects; otherwise sets is_locked with actor and
timestamp, appends a CONFIG_AUTO_LOCKED audit row, and returns true. -/
def trigger_lock_if_needed (db : ConfigDB) (reader_id : Nat) (now : Nat) :
    ConfigDB × Bool :=
  if db.config.is_locked then (db, false)
  else
    ({ config := { db.config with
         is_locked := true, locked_at := some now, locked_by := some reader_id }
       audit := db.audit ++ [{ reader_id := reader_id, action := "CONFIG_AUTO_LOCKED" }] },
     true)

/-- manual_lock: identical guard to trigger_lock_if_needed, with the
admin-flavoured audit action. -/
def manual_lock (db : ConfigDB) (admin_id : Nat) (now : Nat) : ConfigDB × Bool :=
  if db.config.is_locked then (db, false)
  else
    ({ config := { db.config with
         is_locked := true, locked_at := some now, locked_by := some admin_id }
       audit := db.audit ++ [{ reader_id := admin_id, action := "CONFIG_MANUAL_LOCKED" }] },
     true)

/-- get_block_modes: Block A/B modes for (group, session_code) from
DEFAULT_CROSSOVER_MAPPING, with dict-get defaults at every level. -/
def get_block_modes (group : Nat) (session_code : String) : String × String :=
  let mapping := DEFAULT_CROSSOVER_MAPPING
  let group_key := "group_" ++ toString group
  let session_mapping := (((mapping.lookup group_key).getD []).lookup session_code).getD []
  ((session_mapping.lookup "block_A").getD "UNAIDED",
   (session_mapping.lookup "block_B").getD "AIDED")

/-- get_block_modes_from_config: same lookup against the stored
configuration's crossover mapping. -/
def get_block_modes_from_config (cfg : StudyConfig) (group : Nat) (session_code : String) :
    String × String :=
  let mapping := cfg.crossover_mapping
  let group_key := "group_" ++ toString group
  let session_mapping := (((mapping.lookup group_key).getD []).lookup session_code).getD []
  ((session_mapping.lookup "block_A").getD "UNAIDED",
   (session_mapping.lookup "block_B").getD "AIDED")

/-! ## Session Progression Engine (study_session_service.py) -/

/-- CROSSOVER_MAPPING module constant of study_session_service.py:
(group, session_code) to (block_a_mode, block_b_mode).  This is a hardcoded
constant, distinct from the StudyConfig row's crossover_mapping column. -/
def CROSSOVER_MAPPING : List ((Nat × String) × (String × String)) :=
  [((1, "S1"), ("UNAIDED", "AIDED")),
   ((1, "S2"), ("AIDED", "UNAIDED")),
   ((2, "S1"), ("AIDED", "UNAIDED")),
   ((2, "S2"), ("UNAIDED", "AIDED"))]

/-- Reader row (the fields the session service reads). -/
structure Reader where
  id : Nat
  group : Option Nat := none
deriving Repr, DecidableEq

/-- StudySession row.  The JSON-encoded case-order columns are modelled as
decoded lists (none while the column is NULL). -/
structure StudySession where
  id : Nat
  session_code : String
  reader_id : Nat
  block_a_mode : String
  block_b_mode : String
  case_order_block_a : Option (List String) := none
  case_order_block_b : Option (List String) := none
  k_max : Nat := 3
  ai_threshold_pct : Nat := 30
  status : String := "pending"
deriving Repr, DecidableEq

/-- SessionProgress row (the JSON completed_cases column decoded). -/
structure SessionProgress where
  current_block : String := "A"
  current_case_index : Nat := 0
  completed_cases : List String := []
  started_at : Option Nat := none
  last_accessed_at : Option Nat := none
  completed_at : Option Nat := none
deriving Repr, DecidableEq

/-- One session together with its optional progress row (the 1-1
relationship loaded by get_session_by_id). -/
structure SessState where
  session : StudySession
  progress : Option SessionProgress := none
deriving Repr, DecidableEq

/-- Raise sites of the session service.  value-flavoured errors map to
ValueError, permission to PermissionError; internal stands for the
TypeError that json.loads(None) would raise on a NULL order column. -/
inductive SvcErr where
  | permission
  | already_completed
  | progress_missing
  | group_not_set
  | invalid_group_session
  | duplicate_session
  | reader_not_found
  | internal
deriving Repr, DecidableEq

/-- Return payload of enter_session. -/
structure EnterResult where
  session_id : Nat
  session_code : String
  current_block : String
  current_mode : String
  current_case_id : Option String
  current_case_index : Nat
  total_cases_in_block : Nat
  k_max : Nat
  ai_threshold_pct : Nat
  is_new_session : Bool
deriving Repr, DecidableEq

/-- Return payload of get_current_case (optional fields are None in the
completed-session branch). -/
structure CurrentCase where
  session_code : String
  block : Option String
  mode : Option String
  case_id : Option String
  case_index : Option Nat
  total_cases_in_block : Nat
  is_last_in_block : Bool
  is_session_complete : Bool
deriving Repr, DecidableEq

/-- enter_session: authorization and completed-status checks, then either
the first-entry branch (shuffle and persist both case orders, set status
in_progress, create the progress row at block A index 0 with an empty
completed set and started/last-access timestamps now) or the re-entry
branch (refresh last_accessed_at and reuse the stored cursor).  The
shuffles of random.shuffle are supplied as function parameters. -/
def enter_session (st : SessState) (reader_id : Nat)
    (block_a_cases block_b_cases : List String)
    (shuffleA shuffleB : List String → List String) (now : Nat) :
    Except SvcErr (SessState × EnterResult) :=
  let session := st.session
  if session.reader_id ≠ reader_id then .error .permission
  else if session.status = "completed" then .error .already_completed
  else
    match session.case_order_block_a with
    | none =>
      let shuffled_a := shuffleA block_a_cases
      let shuffled_b := shuffleB block_b_cases
      let session' := { session with
        case_order_block_a := some shuffled_a
        case_order_block_b := some shuffled_b
        status := "in_progress" }
      let progress' : SessionProgress :=
        { current_block := "A", current_case_index := 0, completed_cases := []
          started_at := some now, last_accessed_at := some now, completed_at := none }
      .ok ({ session := session', progress := some progress' },
        { session_id := session'.id
          session_code := session'.session_code
          current_block := "A"
          current_mode := session'.block_a_mode
          current_case_id := shuffled_a[0]?
          current_case_index := 0
          total_cases_in_block := shuffled_a.length
          k_max := session'.k_max
          ai_threshold_pct := session'.ai_threshold_pct
          is_new_session := true })
    | some order_a =>
      match st.progress with
      | none => .error .progress_missing
      | some progress =>
        let progress' := { progress with last_accessed_at := some now }
        let current_block := progress.current_block
        let current_index := progress.current_case_index
        match (if current_block = "A" then some order_a else session.case_order_block_b) with
        | none => .error .internal
        | some case_order =>
          .ok ({ session := session, progress := some progress' },
            { session_id := session.id
              session_code := session.session_code
              current_block := current_block
              current_mode :=
                if current_block = "A" then session.block_a_mode else session.block_b_mode
              current_case_id := case_order[current_index]?
              current_case_index := current_index
              total_cases_in_block := case_order.length
              k_max := session.k_max
              ai_threshold_pct := session.ai_threshold_pct
              is_new_session := false })

/-- get_current_case: read-only projection of the cursor; a completed
session short-circuits to the is_session_complete shape. -/
def get_current_case (st : SessState) (reader_id : Nat) : Except SvcErr CurrentCase :=
  let session := st.session
  if session.reader_id ≠ reader_id then .error .permission
  else if session.status = "completed" then
    .ok { session_code := session.session_code
          block := none, mode := none, case_id := none, case_index := none
          total_cases_in_block := 0
          is_last_in_block := true, is_session_complete := true }
  else
    match st.progress with
    | none => .error .progress_missing
    | some progress =>
      let current_block := progress.current_block
      let current_index := progress.current_case_index
      match (if current_block = "A" then session.case_order_block_a
             else session.case_order_block_b) with
      | none => .error .internal
      | some case_order =>
        let total_in_block := case_order.length
        let is_last_in_block := decide (total_in_block - 1 ≤ current_index)
        .ok { session_code := session.session_code
              block := some current_block
              mode := some (if current_block = "A" then session.block_a_mode
                            else session.block_b_mode)
              case_id := case_order[current_index]?
              case_index := some current_index
              total_cases_in_block := total_in_block
              is_last_in_block := is_last_in_block
              is_session_complete :=
                decide (current_block = "B") && is_last_in_block &&
                  decide (total_in_block ≤ current_index) }

/-- advance_to_next_case: records completed_case_id into the completed set
if not already there, then moves the cursor: next index in the same block,
or block A to block B at index 0, or session completion from block B; then
returns the get_current_case projection of the new state. -/
def advance_to_next_case (st : SessState) (reader_id : Nat)
    (completed_case_id : String) (now : Nat) :
    Except SvcErr (SessState × CurrentCase) :=
  let session := st.session
  if session.reader_id ≠ reader_id then .error .permission
  else if session.status = "completed" then .error .already_completed
  else
    match st.progress with
    | none => .error .progress_missing
    | some progress =>
      let completed_cases :=
        if completed_case_id ∈ progress.completed_cases then progress.completed_cases
        else progress.completed_cases ++ [completed_case_id]
      let current_block := progress.current_block
      let current_index := progress.current_case_index
      match (if current_block = "A" then session.case_order_block_a
             else session.case_order_block_b) with
      | none => .error .internal
      | some case_order =>
        let total_in_block := case_order.length
        let next_index := current_index + 1
        let st' : SessState :=
          if total_in_block ≤ next_index then
            if current_block = "A" then
              { session := session
                progress := some { progress with
                  completed_cases := completed_cases
                  current_block := "B", current_case_index := 0
                  last_accessed_at := some now } }
            else
              { session := { session with status := "completed" }
                progress := some { progress with
                  completed_cases := completed_cases
                  completed_at := some now, last_accessed_at := some now } }
          else
            { session := session
              progress := some { progress with
                completed_cases := completed_cases
                current_case_index := next_index
                last_accessed_at := some now } }
        match get_current_case st' reader_id with
        | .error e => .error e
        | .ok cc => .ok (st', cc)

/-- create_session_for_reader: resolves the reader and its group, fixes the
block modes from the hardcoded CROSSOVER_MAPPING constant, rejects
duplicate (reader, session_code) pairs, and creates a pending session. -/
def create_session_for_reader (readers : List Reader) (sessions : List StudySession)
    (reader_id : Nat) (session_code : String) (k_max : Nat) (ai_threshold_pct : Nat)
    (new_id : Nat) : Except SvcErr StudySession :=
  match readers.find? (fun r => r.id = reader_id) with
  | none => .error .reader_not_found
  | some reader =>
    match reader.group with
    | none => .error .group_not_set
    | some group =>
      match CROSSOVER_MAPPING.lookup (group, session_code) with
      | none => .error .invalid_group_session
      | some modes =>
        if sessions.any (fun s => s.reader_id = reader_id ∧ s.session_code = session_code) then
          .error .duplicate_session
        else
          .ok { id := new_id
                session_code := session_code
                reader_id := reader_id
                block_a_mode := modes.1
                block_b_mode := modes.2
                k_max := k_max
                ai_threshold_pct := ai_threshold_pct
                status := "pending" }

/-- reset_session: clears both case orders, resets status to pending and
deletes the progress row. -/
def reset_session (st : SessState) : SessState :=
  { session := { st.session with
      case_order_block_a := none, case_order_block_b := none, status := "pending" }
    progress := none }

/-! ## Whole-system state and router glue (routers/sessions.py)

The enter endpoint calls only the session service plus an audit write; in
particular it never touches the StudyConfig row, and nothing in the
repository calls trigger_lock_if_needed. -/

/-- Database state visible to the session endpoints: the config side plus
one session row under consideration. -/
structure World where
  configdb : ConfigDB := {}
  sess : SessState
deriving Repr, DecidableEq

/-- POST /sessions/{id}/enter: runs the service call and appends the
SESSION_START / SESSION_RESUME audit row.  No other state is touched. -/
def enter_session_endpoint (w : World) (reader_id : Nat)
    (block_a_cases block_b_cases : List String)
    (shuffleA shuffleB : List String → List String) (now : Nat) :
    Except SvcErr (World × EnterResult) :=
  match enter_session w.sess reader_id block_a_cases block_b_cases shuffleA shuffleB now with
  | .error e => .error e
  | .ok (st', res) =>
    let action := if res.is_new_session then "SESSION_START" else "SESSION_RESUME"
    .ok ({ configdb := { w.configdb with
             audit := w.configdb.audit ++ [{ reader_id := reader_id, action := action }] }
           sess := st' }, res)

/-- Admin world for the assign endpoint: the config row, the reader table
and the existing sessions. -/
structure AdminWorld where
  config : StudyConfig := {}
  readers : List Reader := []
  sessions : List StudySession := []
deriving Repr, DecidableEq

/-- POST /sessions/assign: the router forwards to
create_session_for_reader; the stored configuration is not consulted. -/
def assign_session_endpoint (w : AdminWorld) (reader_id : Nat) (session_code : String)
    (k_max : Nat) (ai_threshold_pct : Nat) (new_id : Nat) : Except SvcErr StudySession :=
  create_session_for_reader w.readers w.sessions reader_id session_code k_max
    ai_threshold_pct new_id

/-! ## Crossover Case Allocator (case_discovery_service.py) -/

/-- Return shape of allocate_cases_to_session.  sessions maps each session
code to its list of (block key, ordered case ids); the display-only ratio
string is not modelled. -/
structure AllocationResult where
  total_cases : Nat
  usable_cases : Nat
  cases_per_session : Nat
  cases_per_block : Nat
  positive_per_block : Nat
  negative_per_block : Nat
  sessions : List (String × List (String × List String))
deriving Repr, DecidableEq

/-- block_name = chr(ord(A)+idx); block_key = "block_" + lowercase name. -/
def block_key (block_idx : Nat) : String :=
  "block_" ++ String.singleton (Char.ofNat (97 + block_idx))

/-- allocate_cases_to_session over an already-discovered pool.  The two
category lists stand for get_case_ids_by_category output; catShufP and
catShufN model its optional global per-category shuffle, blockShuf the
per-(session, block) shuffle of the copied block part. -/
def allocate_cases_to_session (positive_ids negative_ids : List String)
    (num_sessions num_blocks : Nat) (shuffle : Bool)
    (catShufP catShufN : List String → List String)
    (blockShuf : Nat → Nat → List String → List String) : AllocationResult :=
  let positive_ids := if shuffle then catShufP positive_ids else positive_ids
  let negative_ids := if shuffle then catShufN negative_ids else negative_ids
  let total_positive := positive_ids.length
  let total_negative := negative_ids.length
  let total_cases := total_positive + total_negative
  let pos_per_block := total_positive / num_blocks
  let neg_per_block := total_negative / num_blocks
  let cases_per_block := pos_per_block + neg_per_block
  let cases_per_session := cases_per_block * num_blocks
  let usable_positive := pos_per_block * num_blocks
  let usable_negative := neg_per_block * num_blocks
  let usable_cases := usable_positive + usable_negative
  let block_parts := (List.range num_blocks).map (fun block_idx =>
    (positive_ids.drop (block_idx * pos_per_block)).take pos_per_block ++
    (negative_ids.drop (block_idx * neg_per_block)).take neg_per_block)
  { total_cases := total_cases
    usable_cases := usable_cases
    cases_per_session := cases_per_session
    cases_per_block := cases_per_block
    positive_per_block := pos_per_block
    negative_per_block := neg_per_block
    sessions := (List.range num_sessions).map (fun i =>
      let session_num := i + 1
      ("S" ++ toString session_num,
       (List.range num_blocks).map (fun block_idx =>
         let block_cases := (block_parts.getD block_idx [])
         (block_key block_idx,
          if shuffle then blockShuf session_num block_idx block_cases else block_cases)))) }

/-- Return shape of get_allocation_preview (sizing only, no orderings; the
display-only ratio string is not modelled). -/
structure PreviewResult where
  total_cases : Nat
  positive_cases : Nat
  negative_cases : Nat
  usable_cases : Nat
  num_sessions : Nat
  num_blocks : Nat
  cases_per_session : Nat
  cases_per_block : Nat
  positive_per_block : Nat
  negative_per_block : Nat
  unused_cases : Nat
deriving Repr, DecidableEq

/-- get_allocation_preview over the same discovered pool: pure arithmetic
on the category totals, producing no ordering. -/
def get_allocation_preview (positive_ids negative_ids : List String)
    (num_sessions num_blocks : Nat) : PreviewResult :=
  let total_positive := positive_ids.length
  let total_negative := negative_ids.length
  let total := total_positive + total_negative
  let pos_per_block := total_positive / num_blocks
  let neg_per_block := total_negative / num_blocks
  let cases_per_block := pos_per_block + neg_per_block
  let usable_positive := pos_per_block * num_blocks
  let usable_negative := neg_per_block * num_blocks
  let usable_cases := usable_positive + usable_negative
  let cases_per_session := cases_per_block * num_blocks
  { total_cases := total
    positive_cases := total_positive
    negative_cases := total_negative
    usable_cases := usable_cases
    num_sessions := num_sessions
    num_blocks := num_blocks
    cases_per_session := cases_per_session
    cases_per_block := cases_per_block
    positive_per_block := pos_per_block
    negative_per_block := neg_per_block
    unused_cases := total - usable_cases }

/-! ## Verification harness over the session engine -/

/-- Iterated advance calls: the caller submits one id per displayed case. -/
def advance_many (st : SessState) (rid : Nat) (ids : List String) (now : Nat) :
    Except SvcErr SessState :=
  match ids with
  | [] => .ok st
  | id :: rest =>
    match advance_to_next_case st rid id now with
    | .error e => .error e
    | .ok (st', _) => advance_many st' rid rest now

/-- A session in the entered (in-progress) regime: both orders persisted
with the given lengths, progress row present, cursor inside its block. -/
def Entered (st : SessState) (rid la lb : Nat) : Prop :=
  st.session.reader_id = rid ∧
  st.session.status = "in_progress" ∧
  (∃ oa, st.session.case_order_block_a = some oa ∧ oa.length = la) ∧
  (∃ ob, st.session.case_order_block_b = some ob ∧ ob.length = lb) ∧
  ∃ p, st.progress = some p ∧
    ((p.current_block = "A" ∧ p.current_case_index < la) ∨
     (p.current_block = "B" ∧ p.current_case_index < lb))

/-- Linearization of the (block, index) cursor: block A index i sits at i,
block B index j at la + j. -/
def cursorPos (la : Nat) (st : SessState) : Nat :=
  match st.progress with
  | none => 0
  | some p =>
    if p.current_block = "A" then p.current_case_index else la + p.current_case_index

/-- Cursor position extended with the terminal state at la + lb. -/
def progressPos (st : SessState) (la lb : Nat) : Nat :=
  if st.session.status = "completed" then la + lb else cursorPos la st

/-- The accumulated completed-case set (a JSON list in the row; membership
is what matters). -/
def completedSet (st : SessState) : List String :=
  match st.progress with
  | none => []
  | some p => p.completed_cases

theorem pos_lt_of_entered {st : SessState} {rid la lb : Nat}
    (hE : Entered st rid la lb) : progressPos st la lb < la + lb := by
  obtain ⟨-, hs, -, -, p, hp, hcur⟩ := hE
  have hsc : st.session.status ≠ "completed" := by
    rw [hs]; decide
  simp only [progressPos, if_neg hsc, cursorPos, hp]
  rcases hcur with ⟨hb, hi⟩ | ⟨hb, hi⟩
  · rw [if_pos hb]
    exact lt_of_lt_of_le hi (Nat.le_add_right la lb)
  · have : p.current_block ≠ "A" := by rw [hb]; decide
    rw [if_neg this]
    exact Nat.add_lt_add_left hi la

/-- The state produced by the mutation part of advance_to_next_case,
factored out of the Except plumbing (proved to agree in advance_eval). -/
def advance_result (st : SessState) (p : SessionProgress) (oa ob : List String)
    (id : String) (now : Nat) : SessState :=
  let completed_cases :=
    if id ∈ p.completed_cases then p.completed_cases else p.completed_cases ++ [id]
  let case_order := if p.current_block = "A" then oa else ob
  if case_order.length ≤ p.current_case_index + 1 then
    if p.current_block = "A" then
      { session := st.session
        progress := some { p with
          completed_cases := completed_cases
          current_block := "B", current_case_index := 0
          last_accessed_at := some now } }
    else
      { session := { st.session with status := "completed" }
        progress := some { p with
          completed_cases := completed_cases
          completed_at := some now, last_accessed_at := some now } }
  else
    { session := st.session
      progress := some { p with
        completed_cases := completed_cases
        current_case_index := p.current_case_index + 1
        last_accessed_at := some now } }

theorem get_current_case_ok {st : SessState} {rid : Nat}
    (hr : st.session.reader_id = rid)
    (h : st.session.status = "completed" ∨
      ∃ p, st.progress = some p ∧
        (if p.current_block = "A" then st.session.case_order_block_a
         else st.session.case_order_block_b).isSome) :
    ∃ cc, get_current_case st rid = .ok cc := by
  rcases h with hc | ⟨p, hp, ho⟩
  · cases hgc : get_current_case st rid with
    | ok cc => exact ⟨cc, rfl⟩
    | error e => simp [get_current_case, hr, hc] at hgc
  · by_cases hs : st.session.status = "completed"
    · cases hgc : get_current_case st rid with
      | ok cc => exact ⟨cc, rfl⟩
      | error e => simp [get_current_case, hr, hs] at hgc
    · obtain ⟨order, horder⟩ := Option.isSome_iff_exists.mp ho
      cases hgc : get_current_case st rid with
      | ok cc => exact ⟨cc, rfl⟩
      | error e => simp [get_current_case, hr, hs, hp, horder] at hgc

theorem advance_unfold {st : SessState} {rid : Nat} {id : String} {now : Nat}
    {p : SessionProgress} {oa ob : List String}
    (hr : st.session.reader_id = rid)
    (hs : st.session.status ≠ "completed")
    (hp : st.progress = some p)
    (hoa : st.session.case_order_block_a = some oa)
    (hob : st.session.case_order_block_b = some ob) :
    advance_to_next_case st rid id now =
      (match get_current_case (advance_result st p oa ob id now) rid with
       | .error e => .error e
       | .ok cc => .ok (advance_result st p oa ob id now, cc)) := by
  by_cases hb : p.current_block = "A" <;>
    simp [advance_to_next_case, advance_result, hr, hs, hp, hoa, hob, hb]

theorem advance_eval {st : SessState} {rid : Nat} (id : String) (now : Nat)
    {p : SessionProgress} {oa ob : List String}
    (hr : st.session.reader_id = rid)
    (hs : st.session.status ≠ "completed")
    (hp : st.progress = some p)
    (hoa : st.session.case_order_block_a = some oa)
    (hob : st.session.case_order_block_b = some ob) :
    ∃ cc, advance_to_next_case st rid id now = .ok (advance_result st p oa ob id now, cc) := by
  have hr' : (advance_result st p oa ob id now).session.reader_id = rid := by
    unfold advance_result
    dsimp only
    split <;> (try split) <;> exact hr
  have hok : (advance_result st p oa ob id now).session.status = "completed" ∨
      ∃ q, (advance_result st p oa ob id now).progress = some q ∧
        (if q.current_block = "A" then (advance_result st p oa ob id now).session.case_order_block_a
         else (advance_result st p oa ob id now).session.case_order_block_b).isSome := by
    unfold advance_result
    dsimp only
    split
    · -- current block is A
      split
      · -- overflow: cursor moves to block B
        right
        refine ⟨_, rfl, ?_⟩
        simp [hob]
      · -- in-block step keeps block A
        rename_i hb hov
        right
        refine ⟨_, rfl, ?_⟩
        simp [hb, hoa]
    · -- current block is not A
      split
      · -- overflow: session completes
        left
        rfl
      · -- in-block step keeps the block
        rename_i hb hov
        right
        refine ⟨_, rfl, ?_⟩
        simp [hb, hob]
  obtain ⟨cc, hcc⟩ := get_current_case_ok hr' hok
  rw [advance_unfold hr hs hp hoa hob, hcc]
  exact ⟨cc, rfl⟩

theorem advance_step {st : SessState} {rid la lb : Nat} (id : String) (now : Nat)
    (hlb : 1 ≤ lb) (hE : Entered st rid la lb) :
    ∃ st' cc, advance_to_next_case st rid id now = .ok (st', cc) ∧
      st'.session.reader_id = rid ∧
      st'.session.case_order_block_a = st.session.case_order_block_a ∧
      st'.session.case_order_block_b = st.session.case_order_block_b ∧
      completedSet st ⊆ completedSet st' ∧
      progressPos st' la lb = progressPos st la lb + 1 ∧
      (progressPos st' la lb < la + lb → Entered st' rid la lb) ∧
      (progressPos st' la lb = la + lb → st'.session.status = "completed") := by
  obtain ⟨hr, hs, ⟨oa, hoa, hlena⟩, ⟨ob, hob, hlenb⟩, p, hp, hcur⟩ := hE
  have hs' : st.session.status ≠ "completed" := by rw [hs]; decide
  obtain ⟨cc, hadv⟩ := advance_eval id now hr hs' hp hoa hob
  refine ⟨advance_result st p oa ob id now, cc, hadv, ?_, ?_, ?_, ?_, ?_⟩
  · unfold advance_result
    dsimp only
    split <;> (try split) <;> exact hr
  · unfold advance_result
    dsimp only
    split <;> (try split) <;> rfl
  · unfold advance_result
    dsimp only
    split <;> (try split) <;> rfl
  · unfold advance_result
    dsimp only
    by_cases hmem : id ∈ p.completed_cases <;>
      split <;> (try split) <;>
        simp [completedSet, hp, hmem, List.subset_append_left]
  · rcases hcur with ⟨hb, hi⟩ | ⟨hb, hi⟩
    · by_cases hov : oa.length ≤ p.current_case_index + 1
      · -- block A overflow: cursor moves to (B, 0)
        have hia : p.current_case_index + 1 = la := by omega
        have hres : advance_result st p oa ob id now =
            { session := st.session
              progress := some { p with
                completed_cases :=
                  if id ∈ p.completed_cases then p.completed_cases
                  else p.completed_cases ++ [id]
                current_block := "B", current_case_index := 0
                last_accessed_at := some now } } := by
          simp [advance_result, hb, hov]
        rw [hres]
        refine ⟨?_, fun _ => ?_, fun heq => absurd heq ?_⟩
        · simp [progressPos, cursorPos, hs', hp, hb]
          omega
        · exact ⟨hr, hs, ⟨oa, hoa, hlena⟩, ⟨ob, hob, hlenb⟩, _, rfl, Or.inr ⟨rfl, hlb⟩⟩
        · simp [progressPos, cursorPos, hs']
          omega
      · -- block A in-block step
        have hlt : p.current_case_index + 1 < la := by omega
        have hres : advance_result st p oa ob id now =
            { session := st.session
              progress := some { p with
                completed_cases :=
                  if id ∈ p.completed_cases then p.completed_cases
                  else p.completed_cases ++ [id]
                current_case_index := p.current_case_index + 1
                last_accessed_at := some now } } := by
          simp [advance_result, hb, hov]
        rw [hres]
        refine ⟨?_, fun _ => ?_, fun heq => absurd heq ?_⟩
        · simp [progressPos, cursorPos, hs', hp, hb]
        · exact ⟨hr, hs, ⟨oa, hoa, hlena⟩, ⟨ob, hob, hlenb⟩, _, rfl, Or.inl ⟨hb, hlt⟩⟩
        · simp [progressPos, cursorPos, hs', hb]
          omega
    · have hb' : p.current_block ≠ "A" := by rw [hb]; decide
      by_cases hov : ob.length ≤ p.current_case_index + 1
      · -- block B overflow: session completes
        have hib : p.current_case_index + 1 = lb := by omega
        have hres : advance_result st p oa ob id now =
            { session := { st.session with status := "completed" }
              progress := some { p with
                completed_cases :=
                  if id ∈ p.completed_cases then p.completed_cases
                  else p.completed_cases ++ [id]
                completed_at := some now, last_accessed_at := some now } } := by
          simp [advance_result, hb', hov]
        rw [hres]
        refine ⟨?_, fun hlt => absurd hlt ?_, fun _ => rfl⟩
        · simp [progressPos, cursorPos, hs', hp, hb']
          omega
        · simp [progressPos]
      · -- block B in-block step
        have hlt : p.current_case_index + 1 < lb := by omega
        have hres : advance_result st p oa ob id now =
            { session := st.session
              progress := some { p with
                completed_cases :=
                  if id ∈ p.completed_cases then p.completed_cases
                  else p.completed_cases ++ [id]
                current_case_index := p.current_case_index + 1
                last_accessed_at := some now } } := by
          simp [advance_result, hb', hov]
        rw [hres]
        refine ⟨?_, fun _ => ?_, fun heq => absurd heq ?_⟩
        · simp [progressPos, cursorPos, hs', hp, hb']
          omega
        · exact ⟨hr, hs, ⟨oa, hoa, hlena⟩, ⟨ob, hob, hlenb⟩, _, rfl, Or.inr ⟨hb, hlt⟩⟩
        · simp [progressPos, cursorPos, hs', hb']
          omega

theorem advance_many_spec {rid la lb : Nat} (now : Nat) (hlb : 1 ≤ lb) :
    ∀ (ids : List String) (st : SessState), Entered st rid la lb →
      progressPos st la lb + ids.length ≤ la + lb →
      ∃ st', advance_many st rid ids now = .ok st' ∧
        completedSet st ⊆ completedSet st' ∧
        progressPos st' la lb = progressPos st la lb + ids.length ∧
        (progressPos st' la lb < la + lb → Entered st' rid la lb) ∧
        (progressPos st' la lb = la + lb → st'.session.status = "completed") := by
  intro ids
  induction ids with
  | nil =>
    intro st hE _
    refine ⟨st, rfl, List.Subset.refl _, by simp, fun _ => hE, fun heq => ?_⟩
    exact absurd heq (Nat.ne_of_lt (pos_lt_of_entered hE))
  | cons id rest ih =>
    intro st hE hlen
    obtain ⟨st1, cc, hadv, -, -, -, hsub1, hpos1, hent1, hcomp1⟩ :=
      advance_step id now hlb hE
    rcases Nat.lt_or_ge (progressPos st1 la lb) (la + lb) with hlt | hge
    · obtain ⟨st', hmany, hsub2, hpos2, hent2, hcomp2⟩ :=
        ih st1 (hent1 hlt) (by simp at hlen; omega)
      refine ⟨st', ?_, hsub1.trans hsub2, ?_, hent2, hcomp2⟩
      · simp [advance_many, hadv, hmany]
      · simp only [List.length_cons]
        omega
    · have heq : progressPos st1 la lb = la + lb := by
        have := pos_lt_of_entered hE
        omega
      have hrest : rest = [] := by
        have : rest.length = 0 := by
          simp only [List.length_cons] at hlen
          omega
        exact List.length_eq_zero.mp this
      subst hrest
      refine ⟨st1, ?_, hsub1, ?_, ?_, fun _ => hcomp1 heq⟩
      · simp [advance_many, hadv]
      · simp only [List.length_cons, List.length_nil]
        omega
      · intro h
        exact absurd heq (Nat.ne_of_lt h)

theorem advance_many_append (st : SessState) (rid : Nat) (l1 l2 : List String) (now : Nat) :
    advance_many st rid (l1 ++ l2) now =
      (match advance_many st rid l1 now with
       | .error e => .error e
       | .ok st1 => advance_many st1 rid l2 now) := by
  induction l1 generalizing st with
  | nil => simp [advance_many]
  | cons id rest ih =>
    simp only [List.cons_append, advance_many]
    cases advance_to_next_case st rid id now with
    | error e => rfl
    | ok pr => exact ih pr.1

theorem enter_session_first {st : SessState} {rid : Nat} (a b : List String)
    (sA sB : List String → List String) (now : Nat)
    (hr : st.session.reader_id = rid)
    (hs : st.session.status ≠ "completed")
    (hfresh : st.session.case_order_block_a = none) :
    enter_session st rid a b sA sB now = .ok
      ({ session := { st.session with
            case_order_block_a := some (sA a),
            case_order_block_b := some (sB b),
            status := "in_progress" },
         progress := some { current_block := "A",
                            current_case_index := 0,
                            completed_cases := [],
                            started_at := some now,
                            last_accessed_at := some now,
                            completed_at := none } },
       { session_id := st.session.id,
         session_code := st.session.session_code,
         current_block := "A",
         current_mode := st.session.block_a_mode,
         current_case_id := (sA a)[0]?,
         current_case_index := 0,
         total_cases_in_block := (sA a).length,
         k_max := st.session.k_max,
         ai_threshold_pct := st.session.ai_threshold_pct,
         is_new_session := true }) := by
  simp [enter_session, hr, hs, hfresh]

theorem advance_result_reader_eq (st : SessState) (p : SessionProgress)
    (oa ob : List String) (id : String) (now : Nat) :
    (advance_result st p oa ob id now).session.reader_id = st.session.reader_id := by
  unfold advance_result
  dsimp only
  split <;> (try split) <;> rfl

theorem advance_result_order_a (st : SessState) (p : SessionProgress)
    (oa ob : List String) (id : String) (now : Nat) :
    (advance_result st p oa ob id now).session.case_order_block_a =
      st.session.case_order_block_a := by
  unfold advance_result
  dsimp only
  split <;> (try split) <;> rfl

theorem advance_result_order_b (st : SessState) (p : SessionProgress)
    (oa ob : List String) (id : String) (now : Nat) :
    (advance_result st p oa ob id now).session.case_order_block_b =
      st.session.case_order_block_b := by
  unfold advance_result
  dsimp only
  split <;> (try split) <;> rfl

theorem advance_result_changes (st : SessState) (p : SessionProgress)
    (oa ob : List String) (id : String) (now : Nat)
    (hs : st.session.status ≠ "completed") :
    ∃ q, (advance_result st p oa ob id now).progress = some q ∧
      q.completed_cases =
        (if id ∈ p.completed_cases then p.completed_cases
         else p.completed_cases ++ [id]) ∧
      (q.current_block, q.current_case_index,
        (advance_result st p oa ob id now).session.status) ≠
        (p.current_block, p.current_case_index, st.session.status) := by
  unfold advance_result
  dsimp only
  split
  · -- current block is A
    split
    · -- overflow: cursor moves to block B, away from block A
      rename_i hb hov
      refine ⟨_, rfl, rfl, fun hcontra => ?_⟩
      have h1 : ("B" : String) = p.current_block := congrArg (fun t => t.1) hcontra
      rw [hb] at h1
      exact absurd h1 (by decide)
    · -- in-block: index strictly increases
      rename_i hb hov
      refine ⟨_, rfl, rfl, fun hcontra => ?_⟩
      have h1 : p.current_case_index + 1 = p.current_case_index :=
        congrArg (fun t => t.2.1) hcontra
      omega
  · split
    · -- overflow from a non-A block: status flips to completed
      rename_i hb hov
      refine ⟨_, rfl, rfl, fun hcontra => ?_⟩
      have h1 : ("completed" : String) = st.session.status :=
        congrArg (fun t => t.2.2) hcontra
      exact hs h1.symm
    · rename_i hb hov
      refine ⟨_, rfl, rfl, fun hcontra => ?_⟩
      have h1 : p.current_case_index + 1 = p.current_case_index :=
        congrArg (fun t => t.2.1) hcontra
      omega

theorem advance_ok_shape {st : SessState} {rid : Nat} {id : String} {now : Nat}
    {st' : SessState} {cc : CurrentCase}
    {p : SessionProgress} {oa ob : List String}
    (hr : st.session.reader_id = rid)
    (hs : st.session.status ≠ "completed")
    (hp : st.progress = some p)
    (hoa : st.session.case_order_block_a = some oa)
    (hob : st.session.case_order_block_b = some ob)
    (h : advance_to_next_case st rid id now = .ok (st', cc)) :
    st' = advance_result st p oa ob id now := by
  obtain ⟨cc0, h0⟩ := advance_eval id now hr hs hp hoa hob
  have := h0.symm.trans h
  have hpair := Except.ok.inj this
  exact (congrArg Prod.fst hpair).symm

/-! ## Concrete fixtures used to instantiate the theorems -/

/-- A pending session assigned to reader 1 (as create_session_for_reader
would produce for group 1, session S1). -/
def demoSession : StudySession :=
  { id := 1, session_code := "S1", reader_id := 1,
    block_a_mode := "UNAIDED", block_b_mode := "AIDED" }

/-- The session before any entry: no case orders, no progress row. -/
def demoFresh : SessState := { session := demoSession }

/-- Whole-system state with the default (unlocked) configuration. -/
def demoWorld : World := { sess := demoFresh }

/-- An in-progress session: three block-A cases, one block-B case, cursor
at (A, 0), nothing completed. -/
def demoProg : SessionProgress :=
  { current_block := "A", current_case_index := 0, completed_cases := [],
    started_at := some 0, last_accessed_at := some 0, completed_at := none }

def demoEntered : SessState :=
  { session := { demoSession with
      case_order_block_a := some ["c1", "c2", "c3"],
      case_order_block_b := some ["d1"],
      status := "in_progress" },
    progress := some demoProg }

/-! ## Claims -/

/-- C1: a successful first entry permutes and persists both block case
lists, sets status to in_progress, and creates the progress row at block A
index 0 with an empty completed set — but it does NOT trigger the one-time
configuration lock: no code path invokes trigger_lock_if_needed, so after
the first successful first-entry the configuration's is_locked flag is
still false, contradicting the claim (and the code's own docstrings, which
say the lock is triggered from enter_session). -/
theorem C1_first_entry_leaves_config_unlocked :
    ∃ w1 res,
      enter_session_endpoint demoWorld 1 ["a1", "a2"] ["b1"] id id 5 = .ok (w1, res) ∧
      res.is_new_session = true ∧
      w1.sess.session.status = "in_progress" ∧
      w1.sess.session.case_order_block_a = some ["a1", "a2"] ∧
      w1.sess.session.case_order_block_b = some ["b1"] ∧
      w1.sess.progress = some { current_block := "A",
                                current_case_index := 0,
                                completed_cases := [],
                                started_at := some 5,
                                last_accessed_at := some 5,
                                completed_at := none } ∧
      demoWorld.configdb.config.is_locked = false ∧
      w1.configdb.config.is_locked = false :=
  ⟨_, _, rfl, rfl, rfl, rfl, rfl, rfl, rfl, rfl⟩

/-- C2: serialized by the exclusive write transaction, two first-entry
lock attempts by different actors resolve so that the first serialized
call returns true and records its actor and timestamp, the second returns
false with no side effects, and the losing caller's own (first) session
entry still succeeds. -/
theorem C2_lock_race (db : ConfigDB) (r1 r2 t1 t2 : Nat)
    (hunlocked : db.config.is_locked = false) :
    (trigger_lock_if_needed db r1 t1).2 = true ∧
    (trigger_lock_if_needed db r1 t1).1.config.is_locked = true ∧
    (trigger_lock_if_needed db r1 t1).1.config.locked_by = some r1 ∧
    (trigger_lock_if_needed db r1 t1).1.config.locked_at = some t1 ∧
    (trigger_lock_if_needed (trigger_lock_if_needed db r1 t1).1 r2 t2).2 = false ∧
    (trigger_lock_if_needed (trigger_lock_if_needed db r1 t1).1 r2 t2).1 =
      (trigger_lock_if_needed db r1 t1).1 ∧
    (∀ st a b sA sB now, st.session.reader_id = r2 →
      st.session.status ≠ "completed" → st.session.case_order_block_a = none →
      ∃ out, enter_session st r2 a b sA sB now = .ok out) := by
  refine ⟨?_, ?_, ?_, ?_, ?_, ?_,
    fun st a b sA sB now hr hs hfresh =>
      ⟨_, enter_session_first a b sA sB now hr hs hfresh⟩⟩ <;>
    simp [trigger_lock_if_needed, hunlocked]

/-- C2 witness: the race theorem instantiated on the default configuration
with actors 1 and 2. -/
theorem C2_lock_race_witness :
    ({} : ConfigDB).config.is_locked = false ∧
    ((trigger_lock_if_needed {} 1 10).2 = true ∧
     (trigger_lock_if_needed {} 1 10).1.config.is_locked = true ∧
     (trigger_lock_if_needed {} 1 10).1.config.locked_by = some 1 ∧
     (trigger_lock_if_needed {} 1 10).1.config.locked_at = some 10 ∧
     (trigger_lock_if_needed (trigger_lock_if_needed {} 1 10).1 2 11).2 = false ∧
     (trigger_lock_if_needed (trigger_lock_if_needed {} 1 10).1 2 11).1 =
       (trigger_lock_if_needed {} 1 10).1 ∧
     (∀ st a b sA sB now, st.session.reader_id = 2 →
       st.session.status ≠ "completed" → st.session.case_order_block_a = none →
       ∃ out, enter_session st 2 a b sA sB now = .ok out)) :=
  ⟨rfl, C2_lock_race {} 1 2 10 11 rfl⟩

/-- C3 counterexample: on a freshly entered session with block A order
[c1, c2, c3], calling advance twice with the same completed_case_id c1
leaves the completed set at [c1] (no duplicate) but moves the cursor from
(A, 0) to (A, 2): the second identical call advances the (block, index)
cursor a second time, contradicting the claim. -/
theorem C3_counterexample_double_advance :
    ((enter_session demoFresh 1 ["c1", "c2", "c3"] ["d1"] id id 0).bind
        (fun pr => advance_to_next_case pr.1 1 "c1" 1)).map
        (fun pr => (completedSet pr.1,
          pr.1.progress.map (fun q => (q.current_block, q.current_case_index)))) =
      .ok (["c1"], some ("A", 1)) ∧
    (((enter_session demoFresh 1 ["c1", "c2", "c3"] ["d1"] id id 0).bind
        (fun pr => advance_to_next_case pr.1 1 "c1" 1)).bind
        (fun pr => advance_to_next_case pr.1 1 "c1" 2)).map
        (fun pr => (completedSet pr.1,
          pr.1.progress.map (fun q => (q.current_block, q.current_case_index)))) =
      .ok (["c1"], some ("A", 2)) ∧
    ((("A", 2) : String × Nat) ≠ ("A", 1)) :=
  ⟨rfl, rfl, by decide⟩

/-- C3 amended: calling advance twice with the same completed_case_id does
not duplicate the completed-case set (the second call leaves the set
unchanged and the id occurs exactly once), but it does advance the cursor
again: every successful second call changes the (block, index, status)
triple once more. -/
theorem C3_amended_no_duplicate_but_cursor_moves
    (st : SessState) (rid : Nat) (id : String) (t1 t2 : Nat)
    (p : SessionProgress) (oa ob : List String)
    (hr : st.session.reader_id = rid)
    (hs : st.session.status ≠ "completed")
    (hp : st.progress = some p)
    (hoa : st.session.case_order_block_a = some oa)
    (hob : st.session.case_order_block_b = some ob)
    (hid : id ∉ p.completed_cases) :
    ∃ st1 c1 p1,
      advance_to_next_case st rid id t1 = .ok (st1, c1) ∧
      st1.progress = some p1 ∧
      p1.completed_cases = p.completed_cases ++ [id] ∧
      p1.completed_cases.count id = 1 ∧
      ∀ st2 c2, advance_to_next_case st1 rid id t2 = .ok (st2, c2) →
        ∃ p2, st2.progress = some p2 ∧
          p2.completed_cases = p1.completed_cases ∧
          (p2.current_block, p2.current_case_index, st2.session.status) ≠
            (p1.current_block, p1.current_case_index, st1.session.status) := by
  obtain ⟨c1, h1⟩ := advance_eval id t1 hr hs hp hoa hob
  obtain ⟨p1, hp1, hp1c, hp1diff⟩ := advance_result_changes st p oa ob id t1 hs
  rw [if_neg hid] at hp1c
  have hmem : id ∈ p1.completed_cases := by
    rw [hp1c]
    simp
  have hcount : p1.completed_cases.count id = 1 := by
    rw [hp1c, List.count_append, List.count_eq_zero.mpr hid]
    simp
  refine ⟨_, c1, p1, h1, hp1, hp1c, hcount, ?_⟩
  intro st2 c2 h2
  by_cases hs1 : (advance_result st p oa ob id t1).session.status = "completed"
  · have hr1 : (advance_result st p oa ob id t1).session.reader_id = rid :=
      (advance_result_reader_eq st p oa ob id t1).trans hr
    simp [advance_to_next_case, hr1, hs1] at h2
  · have hshape := advance_ok_shape
      ((advance_result_reader_eq st p oa ob id t1).trans hr) hs1 hp1
      ((advance_result_order_a st p oa ob id t1).trans hoa)
      ((advance_result_order_b st p oa ob id t1).trans hob) h2
    obtain ⟨p2, hp2, hp2c, hp2diff⟩ :=
      advance_result_changes (advance_result st p oa ob id t1) p1 oa ob id t2 hs1
    refine ⟨p2, ?_, ?_, ?_⟩
    · rw [hshape]
      exact hp2
    · rw [hp2c, if_pos hmem]
    · rw [hshape]
      exact hp2diff

/-- C3 witness: the amended theorem instantiated on a concrete in-progress
session at cursor (A, 0) with case id c1. -/
theorem C3_amended_witness :
    ("c1" ∉ demoProg.completed_cases) ∧
    (∃ st1 c1 p1,
      advance_to_next_case demoEntered 1 "c1" 1 = .ok (st1, c1) ∧
      st1.progress = some p1 ∧
      p1.completed_cases = demoProg.completed_cases ++ ["c1"] ∧
      p1.completed_cases.count "c1" = 1 ∧
      ∀ st2 c2, advance_to_next_case st1 1 "c1" 2 = .ok (st2, c2) →
        ∃ p2, st2.progress = some p2 ∧
          p2.completed_cases = p1.completed_cases ∧
          (p2.current_block, p2.current_case_index, st2.session.status) ≠
            (p1.current_block, p1.current_case_index, st1.session.status)) :=
  ⟨by decide,
   C3_amended_no_duplicate_but_cursor_moves demoEntered 1 "c1" 1 2 demoProg
     ["c1", "c2", "c3"] ["d1"] rfl (by decide) rfl rfl rfl (by decide)⟩

/-- C4 counterexample: entering with two empty block lists succeeds, and
after |A| + |B| = 0 advance calls the session status is in_progress, not
completed; completion in fact takes two further advance calls (one to
leave the empty block A, one to leave the empty block B). -/
theorem C4_counterexample_empty_blocks :
    ((enter_session demoFresh 1 [] [] id id 0).bind
        (fun pr => advance_many pr.1 1 [] 0)).map (fun st => st.session.status) =
      .ok "in_progress" ∧
    ("in_progress" : String) ≠ "completed" ∧
    ((enter_session demoFresh 1 [] [] id id 0).bind
        (fun pr => advance_many pr.1 1 ["x", "y"] 0)).map (fun st => st.session.status) =
      .ok "completed" :=
  ⟨rfl, by decide, rfl⟩

/-- C4 amended: for a first entry with nonempty block case lists of
lengths |A| and |B|, across any sequence of advance calls the completed
set only grows, the linearized cursor advances by exactly one per call
(pending to (A,0) at entry, through (B,0), to completed), and the session
is completed after exactly |A| + |B| advance calls and not before.  (For
an empty block the claimed count fails: leaving the empty block consumes
one extra advance, as the counterexample shows.) -/
theorem C4_amended_monotone_and_exact_completion
    (st0 : SessState) (rid : Nat) (a_cases b_cases : List String)
    (sA sB : List String → List String) (t t' : Nat) (ids : List String)
    (hr : st0.session.reader_id = rid)
    (hs : st0.session.status ≠ "completed")
    (hfresh : st0.session.case_order_block_a = none)
    (hpA : ∀ l, (sA l).Perm l) (hpB : ∀ l, (sB l).Perm l)
    (hla : 1 ≤ a_cases.length) (hlb : 1 ≤ b_cases.length)
    (hlen : ids.length = a_cases.length + b_cases.length)
    (hnd : ids.Nodup) :
    ∃ st1 res, enter_session st0 rid a_cases b_cases sA sB t = .ok (st1, res) ∧
      res.is_new_session = true ∧ res.current_block = "A" ∧
      res.current_case_index = 0 ∧
      (∀ k, k ≤ ids.length →
        ∃ stk, advance_many st1 rid (ids.take k) t' = .ok stk ∧
          progressPos stk a_cases.length b_cases.length = k ∧
          (stk.session.status = "completed" ↔ k = a_cases.length + b_cases.length)) ∧
      (∀ k1 k2 s1 s2, k1 ≤ k2 → k2 ≤ ids.length →
        advance_many st1 rid (ids.take k1) t' = .ok s1 →
        advance_many st1 rid (ids.take k2) t' = .ok s2 →
        completedSet s1 ⊆ completedSet s2) := by
  have h1 := enter_session_first a_cases b_cases sA sB t hr hs hfresh
  refine ⟨_, _, h1, rfl, rfl, rfl, ?_, ?_⟩
  all_goals
    have hE1 : Entered
        { session := { st0.session with
            case_order_block_a := some (sA a_cases),
            case_order_block_b := some (sB b_cases),
            status := "in_progress" },
          progress := some { current_block := "A",
                             current_case_index := 0,
                             completed_cases := [],
                             started_at := some t,
                             last_accessed_at := some t,
                             completed_at := none } } rid a_cases.length b_cases.length :=
      ⟨hr, rfl, ⟨sA a_cases, rfl, (hpA a_cases).length_eq⟩,
       ⟨sB b_cases, rfl, (hpB b_cases).length_eq⟩,
       _, rfl, Or.inl ⟨rfl, hla⟩⟩
  all_goals
    have hpos1 : progressPos
        { session := { st0.session with
            case_order_block_a := some (sA a_cases),
            case_order_block_b := some (sB b_cases),
            status := "in_progress" },
          progress := some { current_block := "A",
                             current_case_index := 0,
                             completed_cases := [],
                             started_at := some t,
                             last_accessed_at := some t,
                             completed_at := none } } a_cases.length b_cases.length = 0 := by
      simp [progressPos, cursorPos]
  · -- exact cursor position and completion point for every prefix
    intro k hk
    obtain ⟨stk, hmany, hsub, hposk, hentk, hcompk⟩ :=
      advance_many_spec t' hlb (ids.take k)
        _ hE1 (by rw [hpos1, List.length_take]; omega)
    rw [hpos1, List.length_take, Nat.zero_add] at hposk
    have hmin : min k ids.length = k := Nat.min_eq_left hk
    rw [hmin] at hposk
    refine ⟨stk, hmany, hposk, ?_, ?_⟩
    · intro hdone
      have : progressPos stk a_cases.length b_cases.length =
          a_cases.length + b_cases.length := by
        simp [progressPos, hdone]
      omega
    · intro hkeq
      exact hcompk (by omega)
  · -- the completed set grows along prefixes
    intro k1 k2 s1 s2 hk12 hk2 hm1 hm2
    obtain ⟨sk1, hmany1, hsub1, hposk1, hentk1, hcompk1⟩ :=
      advance_many_spec t' hlb (ids.take k1)
        _ hE1 (by rw [hpos1, List.length_take]; omega)
    have hs1eq : s1 = sk1 := (Except.ok.inj (hmany1.symm.trans hm1)).symm
    subst hs1eq
    rw [hpos1, List.length_take, Nat.zero_add, Nat.min_eq_left (hk12.trans hk2)] at hposk1
    have hk2split : k2 = k1 + (k2 - k1) := by omega
    rw [hk2split, List.take_add] at hm2
    simp only [advance_many_append, hm1] at hm2
    rcases Nat.lt_or_ge k1 (a_cases.length + b_cases.length) with hcase | hcase
    · have hE2 : Entered s1 rid a_cases.length b_cases.length :=
        hentk1 (by rw [hposk1]; exact hcase)
      obtain ⟨s2x, hmany2, hsub2, -, -, -⟩ :=
        advance_many_spec t' hlb ((ids.drop k1).take (k2 - k1)) s1 hE2
          (by
            rw [hposk1, List.length_take, List.length_drop]
            omega)
      have hs2eq : s2 = s2x := (Except.ok.inj (hmany2.symm.trans hm2)).symm
      subst hs2eq
      exact hsub2
    · have hk1eq : k1 = k2 := by omega
      subst hk1eq
      have hseg : k1 - k1 = 0 := by omega
      rw [hseg, List.take_zero] at hm2
      simp only [advance_many] at hm2
      have : s1 = s2 := Except.ok.inj hm2
      subst this
      exact List.Subset.refl _

/-- C4 witness: the amended theorem instantiated on a first entry with one
case per block and the advance sequence [a1, b1]. -/
theorem C4_amended_witness :
    (1 ≤ (["a1"] : List String).length) ∧
    (∃ st1 res, enter_session demoFresh 1 ["a1"] ["b1"] id id 0 = .ok (st1, res) ∧
      res.is_new_session = true ∧ res.current_block = "A" ∧
      res.current_case_index = 0 ∧
      (∀ k, k ≤ (["a1", "b1"] : List String).length →
        ∃ stk, advance_many st1 1 ((["a1", "b1"] : List String).take k) 0 = .ok stk ∧
          progressPos stk (["a1"] : List String).length (["b1"] : List String).length = k ∧
          (stk.session.status = "completed" ↔
            k = (["a1"] : List String).length + (["b1"] : List String).length)) ∧
      (∀ k1 k2 s1 s2, k1 ≤ k2 → k2 ≤ (["a1", "b1"] : List String).length →
        advance_many st1 1 ((["a1", "b1"] : List String).take k1) 0 = .ok s1 →
        advance_many st1 1 ((["a1", "b1"] : List String).take k2) 0 = .ok s2 →
        completedSet s1 ⊆ completedSet s2)) :=
  ⟨by decide,
   C4_amended_monotone_and_exact_completion demoFresh 1 ["a1"] ["b1"] id id 0 0
     ["a1", "b1"] rfl (by decide) rfl (fun l => List.Perm.refl l)
     (fun l => List.Perm.refl l) (by decide) (by decide) rfl (by decide)⟩

/-- A locked configuration with otherwise default values. -/
def demoLockedConfig : StudyConfig := { is_locked := true }

/-- C5 counterexample: with two locked fields supplied on a locked
configuration, _validate_locked_fields collects both offending fields, but
update_config rejects with detail=errors[0], identifying only the first
(total_sessions) and not k_max — the rejection does not identify every
offending field. -/
theorem C5_counterexample_only_first_field_reported :
    validate_locked_fields { total_sessions := some 3, k_max := some 5 } =
      ["total_sessions", "k_max"] ∧
    update_config demoLockedConfig { total_sessions := some 3, k_max := some 5 } 7 =
      .error (.locked_field "total_sessions") ∧
    ("total_sessions" : String) ≠ "k_max" :=
  ⟨rfl, rfl, by decide⟩

/-- C5 amended: an update on a locked configuration that supplies locked
fields is rejected identifying the FIRST offending field (in the fixed
LOCKED_FIELDS order) with no field applied (the error carries no new
state); an update supplying only non-locked fields is accepted and fully
applied (shown here for payloads without group display names, e.g. a
study-name change). -/
theorem C5_amended_lock_rejection (cfg : StudyConfig) (data : UpdateData) (now : Nat)
    (hlocked : cfg.is_locked = true) :
    (∀ f rest, validate_locked_fields data = f :: rest →
      update_config cfg data now = .error (.locked_field f)) ∧
    (validate_locked_fields data = [] → data.group_names = none →
      update_config cfg data now = .ok (update_config_apply cfg data now) ∧
      (update_config_apply cfg data now).study_name =
        data.study_name.getD cfg.study_name) := by
  constructor
  · intro f rest hv
    simp [update_config, hlocked, hv]
  · intro hv hgn
    have hcm : data.crossover_mapping = none := by
      cases hcm : data.crossover_mapping with
      | none => rfl
      | some m =>
        rw [validate_locked_fields, hcm] at hv
        simp at hv
    refine ⟨?_, rfl⟩
    simp [update_config, hlocked, hv, update_config_vmap, hcm, hgn]

/-- C5 witness: the amended theorem applied to the locked default
configuration, once with two locked fields and once with only a study
name. -/
theorem C5_amended_witness :
    demoLockedConfig.is_locked = true ∧
    update_config demoLockedConfig { total_sessions := some 3, k_max := some 5 } 7 =
      .error (.locked_field "total_sessions") ∧
    update_config demoLockedConfig { study_name := some "X" } 7 =
      .ok (update_config_apply demoLockedConfig { study_name := some "X" } 7) ∧
    (update_config_apply demoLockedConfig { study_name := some "X" } 7).study_name =
      "X" :=
  ⟨rfl,
   (C5_amended_lock_rejection demoLockedConfig
     { total_sessions := some 3, k_max := some 5 } 7 rfl).1
     "total_sessions" ["k_max"] rfl,
   ((C5_amended_lock_rejection demoLockedConfig { study_name := some "X" } 7 rfl).2
     rfl rfl).1,
   ((C5_amended_lock_rejection demoLockedConfig { study_name := some "X" } 7 rfl).2
     rfl rfl).2⟩

/-- A crossover mapping with all required content plus an extra group key
that the validator never inspects. -/
def extraMapping : CrossMap := DEFAULT_CROSSOVER_MAPPING ++ [("group_3", [])]

/-- C6 counterexample: a mapping carrying an extra key (group_3) passes
_validate_crossover_mapping unchanged, and an update supplying it on an
unlocked configuration is accepted and stores the extra key — deviations
by extra keys do NOT fail validation, contradicting the claim that the
mapping must name exactly the expected keys. -/
theorem C6_counterexample_extra_key_accepted :
    validate_crossover_mapping extraMapping = .ok extraMapping ∧
    ("group_3" ∉ required_groups) ∧
    extraMapping.lookup "group_3" = some [] ∧
    update_config {} { crossover_mapping := some extraMapping } 3 =
      .ok (update_config_apply {} { crossover_mapping := some extraMapping } 3) ∧
    (update_config_apply {} { crossover_mapping := some extraMapping } 3).crossover_mapping =
      extraMapping :=
  ⟨rfl, by decide, rfl, rfl, rfl⟩

/-- Characterization of what the validator actually checks on one (group,
session) entry: both required block keys present with valid modes. -/
def blocks_ok (bm : BlockMap) : List String → Bool
  | [] => true
  | b :: rest =>
    match bm.lookup b with
    | none => false
    | some mode => decide (mode ∈ valid_modes) && blocks_ok bm rest

/-- Characterization for one group entry: every listed session code is
present and its blocks are ok. -/
def sessions_ok (gm : SessionMap) : List String → Bool
  | [] => true
  | s :: rest =>
    match gm.lookup s with
    | none => false
    | some bm => blocks_ok bm required_blocks && sessions_ok gm rest

/-- Characterization over the listed group keys. -/
def groups_ok (m : CrossMap) : List String → Bool
  | [] => true
  | g :: rest =>
    match m.lookup g with
    | none => false
    | some gm => sessions_ok gm required_sessions && groups_ok m rest

/-- Acceptance characterization the amended claim proves equivalent to
validation: every REQUIRED key is present with a valid mode.  Keys outside
the required lists are never inspected. -/
def required_keys_ok (m : CrossMap) : Bool := groups_ok m required_groups

theorem check_blocks_eq_ok (g s : String) (bm : BlockMap) (bs : List String) :
    check_blocks g s bm bs = .ok () ↔ blocks_ok bm bs = true := by
  induction bs with
  | nil => simp [check_blocks, blocks_ok]
  | cons b rest ih =>
    cases hb : bm.lookup b with
    | none => simp [check_blocks, blocks_ok, hb]
    | some mode =>
      by_cases hm : mode ∈ valid_modes
      · simp [check_blocks, blocks_ok, hb, hm, ih]
      · simp [check_blocks, blocks_ok, hb, hm]

theorem check_sessions_eq_ok (g : String) (gm : SessionMap) (ss : List String) :
    check_sessions g gm ss = .ok () ↔ sessions_ok gm ss = true := by
  induction ss with
  | nil => simp [check_sessions, sessions_ok]
  | cons s rest ih =>
    cases hs : gm.lookup s with
    | none => simp [check_sessions, sessions_ok, hs]
    | some bm =>
      have hcbiff := check_blocks_eq_ok g s bm required_blocks
      cases hcb : check_blocks g s bm required_blocks with
      | error e =>
        rw [hcb] at hcbiff
        have hfalse : blocks_ok bm required_blocks = false := by
          rw [← Bool.not_eq_true]
          intro h
          exact Except.noConfusion (hcbiff.mpr h)
        simp [check_sessions, sessions_ok, hs, hcb, hfalse]
      | ok u =>
        cases u
        rw [hcb] at hcbiff
        have htrue : blocks_ok bm required_blocks = true := hcbiff.mp rfl
        simp [check_sessions, sessions_ok, hs, hcb, htrue, ih]

theorem check_groups_eq_ok (m : CrossMap) (gs : List String) :
    check_groups m gs = .ok () ↔ groups_ok m gs = true := by
  induction gs with
  | nil => simp [check_groups, groups_ok]
  | cons g rest ih =>
    cases hg : m.lookup g with
    | none => simp [check_groups, groups_ok, hg]
    | some gm =>
      have hcsiff := check_sessions_eq_ok g gm required_sessions
      cases hcs : check_sessions g gm required_sessions with
      | error e =>
        rw [hcs] at hcsiff
        have hfalse : sessions_ok gm required_sessions = false := by
          rw [← Bool.not_eq_true]
          intro h
          exact Except.noConfusion (hcsiff.mpr h)
        simp [check_groups, groups_ok, hg, hcs, hfalse]
      | ok u =>
        cases u
        rw [hcs] at hcsiff
        have htrue : sessions_ok gm required_sessions = true := hcsiff.mp rfl
        simp [check_groups, groups_ok, hg, hcs, htrue, ih]

theorem validate_crossover_mapping_ok_iff (m : CrossMap) :
    validate_crossover_mapping m = .ok m ↔ required_keys_ok m = true := by
  rw [required_keys_ok, ← check_groups_eq_ok m required_groups]
  unfold validate_crossover_mapping
  cases hcg : check_groups m required_groups with
  | error e => simp
  | ok u => cases u; simp

/-- C6 amended: a supplied crossover mapping is accepted exactly when
every required group key names every required session code with both
required block keys, each valued in the two-mode set; extra keys are never
inspected (they are accepted and stored, as the counterexample shows).  On
any validation failure the update returns an error and no supplied field
is applied; on success the mapping is stored as supplied. -/
theorem C6_amended_required_keys_decide_validation (m : CrossMap) (cfg : StudyConfig)
    (data : UpdateData) (now : Nat)
    (hunlocked : cfg.is_locked = false)
    (hdm : data.crossover_mapping = some m)
    (hgn : data.group_names = none) :
    (validate_crossover_mapping m = .ok m ↔ required_keys_ok m = true) ∧
    (∀ e, validate_crossover_mapping m = .error e →
      update_config cfg data now = .error (.bad_mapping e)) ∧
    (validate_crossover_mapping m = .ok m →
      update_config cfg data now = .ok (update_config_apply cfg data now) ∧
      (update_config_apply cfg data now).crossover_mapping = m) := by
  refine ⟨validate_crossover_mapping_ok_iff m, ?_, ?_⟩
  · intro e he
    simp [update_config, hunlocked, update_config_vmap, hdm, he]
  · intro hok
    constructor
    · simp [update_config, hunlocked, update_config_vmap, hdm, hok, hgn]
    · simp [update_config_apply, hdm]

/-- C6 witness: the amended theorem applied to the default mapping on the
default (unlocked) configuration. -/
theorem C6_amended_witness :
    (({} : StudyConfig).is_locked = false) ∧
    ((validate_crossover_mapping DEFAULT_CROSSOVER_MAPPING =
        .ok DEFAULT_CROSSOVER_MAPPING ↔
      required_keys_ok DEFAULT_CROSSOVER_MAPPING = true) ∧
     (∀ e, validate_crossover_mapping DEFAULT_CROSSOVER_MAPPING = .error e →
       update_config {} { crossover_mapping := some DEFAULT_CROSSOVER_MAPPING } 3 =
         .error (.bad_mapping e)) ∧
     (validate_crossover_mapping DEFAULT_CROSSOVER_MAPPING =
        .ok DEFAULT_CROSSOVER_MAPPING →
       update_config {} { crossover_mapping := some DEFAULT_CROSSOVER_MAPPING } 3 =
         .ok (update_config_apply {}
           { crossover_mapping := some DEFAULT_CROSSOVER_MAPPING } 3) ∧
       (update_config_apply {}
         { crossover_mapping := some DEFAULT_CROSSOVER_MAPPING } 3).crossover_mapping =
         DEFAULT_CROSSOVER_MAPPING)) :=
  ⟨rfl, C6_amended_required_keys_decide_validation DEFAULT_CROSSOVER_MAPPING {}
    { crossover_mapping := some DEFAULT_CROSSOVER_MAPPING } 3 rfl rfl rfl⟩

theorem slice_length {α : Type} (l : List α) (nb b : Nat) (hb : b < nb) :
    ((l.drop (b * (l.length / nb))).take (l.length / nb)).length = l.length / nb := by
  rw [List.length_take, List.length_drop]
  have h1 : (b + 1) * (l.length / nb) ≤ nb * (l.length / nb) :=
    Nat.mul_le_mul_right _ hb
  have h2 : nb * (l.length / nb) ≤ l.length := by
    rw [Nat.mul_comm]
    exact Nat.div_mul_le_self _ _
  have h3 : b * (l.length / nb) + l.length / nb ≤ l.length := by
    rw [Nat.succ_mul] at h1
    omega
  omega

theorem slice_subset {α : Type} (l : List α) (i k : Nat) : (l.drop i).take k ⊆ l :=
  fun x hx => List.drop_subset i l (List.take_subset k _ hx)

theorem map_range_getElem?_eq {α : Type} (f : Nat → α) (n b : Nat) {x : α}
    (h : ((List.range n).map f)[b]? = some x) : b < n ∧ x = f b := by
  rcases Nat.lt_or_ge b n with hb | hb
  · rw [List.getElem?_map, List.getElem?_range hb] at h
    exact ⟨hb, (Option.some.inj h).symm⟩
  · rw [List.getElem?_map, List.getElem?_eq_none (by simpa using hb)] at h
    exact absurd h (by simp)

theorem map_range_getD_eq {α : Type} (f : Nat → α) (n b : Nat) (d : α) (hb : b < n) :
    ((List.range n).map f).getD b d = f b := by
  rw [List.getD_eq_getElem?_getD, List.getElem?_map, List.getElem?_range hb]
  rfl

/-- C7: with the category shuffles and per-(session, block) shuffles being
permutations and the two category pools disjoint, every produced block of
every session contains exactly floor(P/B) cases from the positive pool and
floor(N/B) from the negative pool, and for each block index the case
content is a permutation (identical as a multiset) across all sessions. -/
theorem C7_allocation_balance
    (positive_ids negative_ids : List String) (num_sessions num_blocks : Nat)
    (catShufP catShufN : List String → List String)
    (blockShuf : Nat → Nat → List String → List String)
    (hP : ∀ l, (catShufP l).Perm l) (hN : ∀ l, (catShufN l).Perm l)
    (hB : ∀ s b l, (blockShuf s b l).Perm l)
    (hdisj : ∀ c ∈ positive_ids, c ∉ negative_ids) :
    (∀ sc blocks, (sc, blocks) ∈ (allocate_cases_to_session positive_ids negative_ids
        num_sessions num_blocks true catShufP catShufN blockShuf).sessions →
      ∀ bk cases, (bk, cases) ∈ blocks →
        cases.countP (fun c => decide (c ∈ positive_ids)) =
          positive_ids.length / num_blocks ∧
        cases.countP (fun c => decide (c ∈ negative_ids)) =
          negative_ids.length / num_blocks ∧
        cases.length = positive_ids.length / num_blocks +
          negative_ids.length / num_blocks) ∧
    (∀ sc1 blocks1 sc2 blocks2,
      (sc1, blocks1) ∈ (allocate_cases_to_session positive_ids negative_ids
        num_sessions num_blocks true catShufP catShufN blockShuf).sessions →
      (sc2, blocks2) ∈ (allocate_cases_to_session positive_ids negative_ids
        num_sessions num_blocks true catShufP catShufN blockShuf).sessions →
      ∀ (b : Nat) (bk1 : String) (c1 : List String) (bk2 : String) (c2 : List String),
        blocks1[b]? = some (bk1, c1) → blocks2[b]? = some (bk2, c2) →
        bk1 = bk2 ∧ c1.Perm c2) := by
  have hlp : (catShufP positive_ids).length = positive_ids.length :=
    (hP positive_ids).length_eq
  have hln : (catShufN negative_ids).length = negative_ids.length :=
    (hN negative_ids).length_eq
  have hsessions : (allocate_cases_to_session positive_ids negative_ids
      num_sessions num_blocks true catShufP catShufN blockShuf).sessions =
      (List.range num_sessions).map (fun i =>
        ("S" ++ toString (i + 1),
         (List.range num_blocks).map (fun b =>
           (block_key b,
            blockShuf (i + 1) b (((List.range num_blocks).map (fun bi =>
              ((catShufP positive_ids).drop
                (bi * ((catShufP positive_ids).length / num_blocks))).take
                ((catShufP positive_ids).length / num_blocks) ++
              ((catShufN negative_ids).drop
                (bi * ((catShufN negative_ids).length / num_blocks))).take
                ((catShufN negative_ids).length / num_blocks))).getD b []))))) := rfl
  have hpart : ∀ b, b < num_blocks →
      ((List.range num_blocks).map (fun bi =>
        ((catShufP positive_ids).drop
          (bi * ((catShufP positive_ids).length / num_blocks))).take
          ((catShufP positive_ids).length / num_blocks) ++
        ((catShufN negative_ids).drop
          (bi * ((catShufN negative_ids).length / num_blocks))).take
          ((catShufN negative_ids).length / num_blocks))).getD b [] =
      ((catShufP positive_ids).drop
        (b * ((catShufP positive_ids).length / num_blocks))).take
        ((catShufP positive_ids).length / num_blocks) ++
      ((catShufN negative_ids).drop
        (b * ((catShufN negative_ids).length / num_blocks))).take
        ((catShufN negative_ids).length / num_blocks) :=
    fun b hb => map_range_getD_eq _ num_blocks b [] hb
  have hpartspec : ∀ b, b < num_blocks →
      ∀ part, part =
        ((catShufP positive_ids).drop
          (b * ((catShufP positive_ids).length / num_blocks))).take
          ((catShufP positive_ids).length / num_blocks) ++
        ((catShufN negative_ids).drop
          (b * ((catShufN negative_ids).length / num_blocks))).take
          ((catShufN negative_ids).length / num_blocks) →
      part.countP (fun c => decide (c ∈ positive_ids)) =
        positive_ids.length / num_blocks ∧
      part.countP (fun c => decide (c ∈ negative_ids)) =
        negative_ids.length / num_blocks ∧
      part.length = positive_ids.length / num_blocks +
        negative_ids.length / num_blocks := by
    intro b hb part hpartdef
    subst hpartdef
    have hmemP : ∀ c ∈ ((catShufP positive_ids).drop
        (b * ((catShufP positive_ids).length / num_blocks))).take
        ((catShufP positive_ids).length / num_blocks), c ∈ positive_ids :=
      fun c hc => (hP positive_ids).subset (slice_subset _ _ _ hc)
    have hmemN : ∀ c ∈ ((catShufN negative_ids).drop
        (b * ((catShufN negative_ids).length / num_blocks))).take
        ((catShufN negative_ids).length / num_blocks), c ∈ negative_ids :=
      fun c hc => (hN negative_ids).subset (slice_subset _ _ _ hc)
    have hlenP := slice_length (catShufP positive_ids) num_blocks b hb
    have hlenN := slice_length (catShufN negative_ids) num_blocks b hb
    refine ⟨?_, ?_, ?_⟩
    · rw [List.countP_append]
      have c1 : (((catShufP positive_ids).drop
          (b * ((catShufP positive_ids).length / num_blocks))).take
          ((catShufP positive_ids).length / num_blocks)).countP
          (fun c => decide (c ∈ positive_ids)) =
          (((catShufP positive_ids).drop
          (b * ((catShufP positive_ids).length / num_blocks))).take
          ((catShufP positive_ids).length / num_blocks)).length :=
        List.countP_eq_length.mpr
          (fun a ha => decide_eq_true (hmemP a ha))
      have c2 : (((catShufN negative_ids).drop
          (b * ((catShufN negative_ids).length / num_blocks))).take
          ((catShufN negative_ids).length / num_blocks)).countP
          (fun c => decide (c ∈ positive_ids)) = 0 :=
        List.countP_eq_zero.mpr
          (fun a ha => by
            simp only [decide_eq_true_eq]
            intro hpos
            exact hdisj a hpos (hmemN a ha))
      rw [c1, c2, hlenP, hlp]
      omega
    · rw [List.countP_append]
      have c1 : (((catShufP positive_ids).drop
          (b * ((catShufP positive_ids).length / num_blocks))).take
          ((catShufP positive_ids).length / num_blocks)).countP
          (fun c => decide (c ∈ negative_ids)) = 0 :=
        List.countP_eq_zero.mpr
          (fun a ha => by
            simp only [decide_eq_true_eq]
            exact hdisj a (hmemP a ha))
      have c2 : (((catShufN negative_ids).drop
          (b * ((catShufN negative_ids).length / num_blocks))).take
          ((catShufN negative_ids).length / num_blocks)).countP
          (fun c => decide (c ∈ negative_ids)) =
          (((catShufN negative_ids).drop
          (b * ((catShufN negative_ids).length / num_blocks))).take
          ((catShufN negative_ids).length / num_blocks)).length :=
        List.countP_eq_length.mpr
          (fun a ha => decide_eq_true (hmemN a ha))
      rw [c1, c2, hlenN, hln]
      omega
    · rw [List.length_append, hlenP, hlenN, hlp, hln]
  constructor
  · intro sc blocks hmem bk cases hmemb
    rw [hsessions] at hmem
    obtain ⟨i, hi, hfi⟩ := List.mem_map.mp hmem
    have hblocks : blocks = (List.range num_blocks).map (fun b =>
        (block_key b,
         blockShuf (i + 1) b (((List.range num_blocks).map (fun bi =>
           ((catShufP positive_ids).drop
             (bi * ((catShufP positive_ids).length / num_blocks))).take
             ((catShufP positive_ids).length / num_blocks) ++
           ((catShufN negative_ids).drop
             (bi * ((catShufN negative_ids).length / num_blocks))).take
             ((catShufN negative_ids).length / num_blocks))).getD b []))) :=
      (congrArg Prod.snd hfi).symm
    rw [hblocks] at hmemb
    obtain ⟨b, hbmem, hfb⟩ := List.mem_map.mp hmemb
    have hb : b < num_blocks := List.mem_range.mp hbmem
    have hcases : cases = blockShuf (i + 1) b
        (((List.range num_blocks).map (fun bi =>
          ((catShufP positive_ids).drop
            (bi * ((catShufP positive_ids).length / num_blocks))).take
            ((catShufP positive_ids).length / num_blocks) ++
          ((catShufN negative_ids).drop
            (bi * ((catShufN negative_ids).length / num_blocks))).take
            ((catShufN negative_ids).length / num_blocks))).getD b []) :=
      (congrArg Prod.snd hfb).symm
    rw [hcases, hpart b hb]
    have hperm := hB (i + 1) b
      (((catShufP positive_ids).drop
        (b * ((catShufP positive_ids).length / num_blocks))).take
        ((catShufP positive_ids).length / num_blocks) ++
      ((catShufN negative_ids).drop
        (b * ((catShufN negative_ids).length / num_blocks))).take
        ((catShufN negative_ids).length / num_blocks))
    obtain ⟨s1, s2, s3⟩ := hpartspec b hb _ rfl
    exact ⟨(hperm.countP_eq _).trans s1, (hperm.countP_eq _).trans s2,
      hperm.length_eq.trans s3⟩
  · intro sc1 blocks1 sc2 blocks2 h1 h2 b bk1 c1 bk2 c2 hb1 hb2
    rw [hsessions] at h1 h2
    obtain ⟨i1, hi1, hfi1⟩ := List.mem_map.mp h1
    obtain ⟨i2, hi2, hfi2⟩ := List.mem_map.mp h2
    have hblocks1 : blocks1 = (List.range num_blocks).map (fun b =>
        (block_key b,
         blockShuf (i1 + 1) b (((List.range num_blocks).map (fun bi =>
           ((catShufP positive_ids).drop
             (bi * ((catShufP positive_ids).length / num_blocks))).take
             ((catShufP positive_ids).length / num_blocks) ++
           ((catShufN negative_ids).drop
             (bi * ((catShufN negative_ids).length / num_blocks))).take
             ((catShufN negative_ids).length / num_blocks))).getD b []))) :=
      (congrArg Prod.snd hfi1).symm
    have hblocks2 : blocks2 = (List.range num_blocks).map (fun b =>
        (block_key b,
         blockShuf (i2 + 1) b (((List.range num_blocks).map (fun bi =>
           ((catShufP positive_ids).drop
             (bi * ((catShufP positive_ids).length / num_blocks))).take
             ((catShufP positive_ids).length / num_blocks) ++
           ((catShufN negative_ids).drop
             (bi * ((catShufN negative_ids).length / num_blocks))).take
             ((catShufN negative_ids).length / num_blocks))).getD b []))) :=
      (congrArg Prod.snd hfi2).symm
    rw [hblocks1] at hb1
    rw [hblocks2] at hb2
    obtain ⟨hbn1, hx1⟩ := map_range_getElem?_eq _ num_blocks b hb1
    obtain ⟨hbn2, hx2⟩ := map_range_getElem?_eq _ num_blocks b hb2
    have hbk1 : bk1 = block_key b := congrArg Prod.fst hx1
    have hbk2 : bk2 = block_key b := congrArg Prod.fst hx2
    have hc1 : c1 = blockShuf (i1 + 1) b
        (((List.range num_blocks).map (fun bi =>
          ((catShufP positive_ids).drop
            (bi * ((catShufP positive_ids).length / num_blocks))).take
            ((catShufP positive_ids).length / num_blocks) ++
          ((catShufN negative_ids).drop
            (bi * ((catShufN negative_ids).length / num_blocks))).take
            ((catShufN negative_ids).length / num_blocks))).getD b []) :=
      congrArg Prod.snd hx1
    have hc2 : c2 = blockShuf (i2 + 1) b
        (((List.range num_blocks).map (fun bi =>
          ((catShufP positive_ids).drop
            (bi * ((catShufP positive_ids).length / num_blocks))).take
            ((catShufP positive_ids).length / num_blocks) ++
          ((catShufN negative_ids).drop
            (bi * ((catShufN negative_ids).length / num_blocks))).take
            ((catShufN negative_ids).length / num_blocks))).getD b []) :=
      congrArg Prod.snd hx2
    refine ⟨hbk1.trans hbk2.symm, ?_⟩
    rw [hc1, hc2]
    exact (hB (i1 + 1) b _).trans (hB (i2 + 1) b _).symm

/-- C7 witness: the balance theorem instantiated on a 4-positive,
2-negative pool, two sessions, two blocks, identity shuffles. -/
theorem C7_allocation_balance_witness :
    ((∀ c ∈ (["p1", "p2", "p3", "p4"] : List String), c ∉ (["n1", "n2"] : List String)) ∧
    ((∀ sc blocks, (sc, blocks) ∈ (allocate_cases_to_session ["p1", "p2", "p3", "p4"]
        ["n1", "n2"] 2 2 true id id (fun _ _ l => l)).sessions →
      ∀ bk cases, (bk, cases) ∈ blocks →
        cases.countP (fun c => decide (c ∈ (["p1", "p2", "p3", "p4"] : List String))) =
          (["p1", "p2", "p3", "p4"] : List String).length / 2 ∧
        cases.countP (fun c => decide (c ∈ (["n1", "n2"] : List String))) =
          (["n1", "n2"] : List String).length / 2 ∧
        cases.length = (["p1", "p2", "p3", "p4"] : List String).length / 2 +
          (["n1", "n2"] : List String).length / 2) ∧
    (∀ sc1 blocks1 sc2 blocks2,
      (sc1, blocks1) ∈ (allocate_cases_to_session ["p1", "p2", "p3", "p4"]
        ["n1", "n2"] 2 2 true id id (fun _ _ l => l)).sessions →
      (sc2, blocks2) ∈ (allocate_cases_to_session ["p1", "p2", "p3", "p4"]
        ["n1", "n2"] 2 2 true id id (fun _ _ l => l)).sessions →
      ∀ (b : Nat) (bk1 : String) (c1 : List String) (bk2 : String) (c2 : List String),
        blocks1[b]? = some (bk1, c1) → blocks2[b]? = some (bk2, c2) →
        bk1 = bk2 ∧ c1.Perm c2))) :=
  ⟨by decide,
   C7_allocation_balance ["p1", "p2", "p3", "p4"] ["n1", "n2"] 2 2 id id
     (fun _ _ l => l) (fun l => List.Perm.refl l) (fun l => List.Perm.refl l)
     (fun _ _ l => List.Perm.refl l) (by decide)⟩

/-- C9: over the same discovered pool, the read-only preview reports
exactly the sizing an actual allocation produces — cases per block,
positive and negative per block, usable cases, total — and its unused
count equals the actual allocation's total minus usable; this holds for
every shuffle behaviour and every (num_sessions, num_blocks), and the
preview result carries no ordering (its type has no sessions field) and
mutates nothing (both functions are pure). -/
theorem C9_preview_matches_allocation
    (positive_ids negative_ids : List String) (num_sessions num_blocks : Nat)
    (shuffle : Bool) (catShufP catShufN : List String → List String)
    (blockShuf : Nat → Nat → List String → List String)
    (hP : ∀ l, (catShufP l).Perm l) (hN : ∀ l, (catShufN l).Perm l) :
    (get_allocation_preview positive_ids negative_ids num_sessions
        num_blocks).cases_per_block =
      (allocate_cases_to_session positive_ids negative_ids num_sessions num_blocks
        shuffle catShufP catShufN blockShuf).cases_per_block ∧
    (get_allocation_preview positive_ids negative_ids num_sessions
        num_blocks).positive_per_block =
      (allocate_cases_to_session positive_ids negative_ids num_sessions num_blocks
        shuffle catShufP catShufN blockShuf).positive_per_block ∧
    (get_allocation_preview positive_ids negative_ids num_sessions
        num_blocks).negative_per_block =
      (allocate_cases_to_session positive_ids negative_ids num_sessions num_blocks
        shuffle catShufP catShufN blockShuf).negative_per_block ∧
    (get_allocation_preview positive_ids negative_ids num_sessions
        num_blocks).usable_cases =
      (allocate_cases_to_session positive_ids negative_ids num_sessions num_blocks
        shuffle catShufP catShufN blockShuf).usable_cases ∧
    (get_allocation_preview positive_ids negative_ids num_sessions
        num_blocks).cases_per_session =
      (allocate_cases_to_session positive_ids negative_ids num_sessions num_blocks
        shuffle catShufP catShufN blockShuf).cases_per_session ∧
    (get_allocation_preview positive_ids negative_ids num_sessions
        num_blocks).total_cases =
      (allocate_cases_to_session positive_ids negative_ids num_sessions num_blocks
        shuffle catShufP catShufN blockShuf).total_cases ∧
    (get_allocation_preview positive_ids negative_ids num_sessions
        num_blocks).unused_cases =
      (allocate_cases_to_session positive_ids negative_ids num_sessions num_blocks
        shuffle catShufP catShufN blockShuf).total_cases -
      (allocate_cases_to_session positive_ids negative_ids num_sessions num_blocks
        shuffle catShufP catShufN blockShuf).usable_cases := by
  cases shuffle <;>
    simp [get_allocation_preview, allocate_cases_to_session,
      (hP positive_ids).length_eq, (hN negative_ids).length_eq]

/-- C9 witness: preview and allocation agree on a concrete 5-positive,
3-negative pool with 2 sessions and 2 blocks under identity shuffles. -/
theorem C9_preview_matches_allocation_witness :
    (get_allocation_preview ["p1", "p2", "p3", "p4", "p5"] ["n1", "n2", "n3"]
        2 2).cases_per_block =
      (allocate_cases_to_session ["p1", "p2", "p3", "p4", "p5"] ["n1", "n2", "n3"]
        2 2 true id id (fun _ _ l => l)).cases_per_block ∧
    (get_allocation_preview ["p1", "p2", "p3", "p4", "p5"] ["n1", "n2", "n3"]
        2 2).positive_per_block =
      (allocate_cases_to_session ["p1", "p2", "p3", "p4", "p5"] ["n1", "n2", "n3"]
        2 2 true id id (fun _ _ l => l)).positive_per_block ∧
    (get_allocation_preview ["p1", "p2", "p3", "p4", "p5"] ["n1", "n2", "n3"]
        2 2).negative_per_block =
      (allocate_cases_to_session ["p1", "p2", "p3", "p4", "p5"] ["n1", "n2", "n3"]
        2 2 true id id (fun _ _ l => l)).negative_per_block ∧
    (get_allocation_preview ["p1", "p2", "p3", "p4", "p5"] ["n1", "n2", "n3"]
        2 2).usable_cases =
      (allocate_cases_to_session ["p1", "p2", "p3", "p4", "p5"] ["n1", "n2", "n3"]
        2 2 true id id (fun _ _ l => l)).usable_cases ∧
    (get_allocation_preview ["p1", "p2", "p3", "p4", "p5"] ["n1", "n2", "n3"]
        2 2).cases_per_session =
      (allocate_cases_to_session ["p1", "p2", "p3", "p4", "p5"] ["n1", "n2", "n3"]
        2 2 true id id (fun _ _ l => l)).cases_per_session ∧
    (get_allocation_preview ["p1", "p2", "p3", "p4", "p5"] ["n1", "n2", "n3"]
        2 2).total_cases =
      (allocate_cases_to_session ["p1", "p2", "p3", "p4", "p5"] ["n1", "n2", "n3"]
        2 2 true id id (fun _ _ l => l)).total_cases ∧
    (get_allocation_preview ["p1", "p2", "p3", "p4", "p5"] ["n1", "n2", "n3"]
        2 2).unused_cases =
      (allocate_cases_to_session ["p1", "p2", "p3", "p4", "p5"] ["n1", "n2", "n3"]
        2 2 true id id (fun _ _ l => l)).total_cases -
      (allocate_cases_to_session ["p1", "p2", "p3", "p4", "p5"] ["n1", "n2", "n3"]
        2 2 true id id (fun _ _ l => l)).usable_cases :=
  C9_preview_matches_allocation ["p1", "p2", "p3", "p4", "p5"] ["n1", "n2", "n3"]
    2 2 true id id (fun _ _ l => l)
    (fun l => List.Perm.refl l) (fun l => List.Perm.refl l)

/-- A stored configuration whose crossover mapping swaps every mode
relative to the hardcoded CROSSOVER_MAPPING constant. -/
def swappedConfig : StudyConfig :=
  { crossover_mapping :=
      [("group_1", [("S1", [("block_A", "AIDED"), ("block_B", "UNAIDED")]),
                    ("S2", [("block_A", "UNAIDED"), ("block_B", "AIDED")])]),
       ("group_2", [("S1", [("block_A", "UNAIDED"), ("block_B", "AIDED")]),
                    ("S2", [("block_A", "AIDED"), ("block_B", "UNAIDED")])])] }

/-- Reader 1 in group 1. -/
def demoReaders : List Reader := [{ id := 1, group := some 1 }]

/-- C8 counterexample: with a stored configuration whose crossover mapping
maps (group 1, S1) to (AIDED, UNAIDED), session creation still produces
block modes (UNAIDED, AIDED): it reads the hardcoded module constant
CROSSOVER_MAPPING, not the stored configuration served by the config
service, so the claim that creation looks up the stored mapping is
false. -/
theorem C8_counterexample_stored_mapping_ignored :
    get_block_modes_from_config swappedConfig 1 "S1" = ("AIDED", "UNAIDED") ∧
    assign_session_endpoint
      { config := swappedConfig, readers := demoReaders, sessions := [] }
      1 "S1" 3 30 10 =
      .ok { id := 10, session_code := "S1", reader_id := 1,
            block_a_mode := "UNAIDED", block_b_mode := "AIDED",
            k_max := 3, ai_threshold_pct := 30, status := "pending" } ∧
    (("UNAIDED", "AIDED") : String × String) ≠ ("AIDED", "UNAIDED") :=
  ⟨rfl, rfl, by decide⟩

/-- C8 amended: session creation resolves the participant's group and
fixes the block modes from the hardcoded CROSSOVER_MAPPING constant —
independently of the stored configuration — failing when the (group,
session_code) pair is not in that constant, and failing when a session
already exists for the (participant, session_code) pair; otherwise it
creates the pending session with the constant's modes. -/
theorem C8_amended_uses_hardcoded_mapping
    (readers : List Reader) (sessions : List StudySession)
    (reader_id : Nat) (session_code : String) (k_max ai new_id : Nat)
    (r : Reader) (g : Nat)
    (hfind : readers.find? (fun x => x.id = reader_id) = some r)
    (hg : r.group = some g) :
    (∀ cfg cfg' : StudyConfig,
      assign_session_endpoint
        { config := cfg, readers := readers, sessions := sessions }
        reader_id session_code k_max ai new_id =
      assign_session_endpoint
        { config := cfg', readers := readers, sessions := sessions }
        reader_id session_code k_max ai new_id) ∧
    (CROSSOVER_MAPPING.lookup (g, session_code) = none →
      create_session_for_reader readers sessions reader_id session_code k_max ai
        new_id = .error .invalid_group_session) ∧
    (∀ modes, CROSSOVER_MAPPING.lookup (g, session_code) = some modes →
      (sessions.any (fun s => s.reader_id = reader_id ∧
          s.session_code = session_code) = true →
        create_session_for_reader readers sessions reader_id session_code k_max ai
          new_id = .error .duplicate_session) ∧
      (sessions.any (fun s => s.reader_id = reader_id ∧
          s.session_code = session_code) = false →
        create_session_for_reader readers sessions reader_id session_code k_max ai
          new_id =
          .ok { id := new_id, session_code := session_code, reader_id := reader_id,
                block_a_mode := modes.1, block_b_mode := modes.2,
                k_max := k_max, ai_threshold_pct := ai, status := "pending" })) := by
  refine ⟨fun cfg cfg' => rfl, ?_, ?_⟩
  · intro hnone
    simp [create_session_for_reader, hfind, hg, hnone]
  · intro modes hmodes
    constructor
    · intro hdup
      simp [create_session_for_reader, hfind, hg, hmodes, hdup]
      simpa using hdup
    · intro hnodup
      simp [create_session_for_reader, hfind, hg, hmodes, hnodup]
      simpa using hnodup

/-- C8 witness: the amended theorem instantiated for reader 1 (group 1)
creating S1 with no existing sessions. -/
theorem C8_amended_witness :
    demoReaders.find? (fun x => x.id = 1) = some { id := 1, group := some 1 } ∧
    ((∀ cfg cfg' : StudyConfig,
      assign_session_endpoint
        { config := cfg, readers := demoReaders, sessions := [] }
        1 "S1" 3 30 10 =
      assign_session_endpoint
        { config := cfg', readers := demoReaders, sessions := [] }
        1 "S1" 3 30 10) ∧
    (CROSSOVER_MAPPING.lookup ((1 : Nat), "S1") = none →
      create_session_for_reader demoReaders [] 1 "S1" 3 30 10 =
        .error .invalid_group_session) ∧
    (∀ modes, CROSSOVER_MAPPING.lookup ((1 : Nat), "S1") = some modes →
      (([] : List StudySession).any (fun s => s.reader_id = 1 ∧
          s.session_code = "S1") = true →
        create_session_for_reader demoReaders [] 1 "S1" 3 30 10 =
          .error .duplicate_session) ∧
      (([] : List StudySession).any (fun s => s.reader_id = 1 ∧
          s.session_code = "S1") = false →
        create_session_for_reader demoReaders [] 1 "S1" 3 30 10 =
          .ok { id := 10, session_code := "S1", reader_id := 1,
                block_a_mode := modes.1, block_b_mode := modes.2,
                k_max := 3, ai_threshold_pct := 30, status := "pending" }))) :=
  ⟨rfl, C8_amended_uses_hardcoded_mapping demoReaders [] 1 "S1" 3 30 10
    { id := 1, group := some 1 } 1 rfl rfl⟩

/-- An empty stored crossover mapping. -/
def emptyMapConfig : StudyConfig := { crossover_mapping := [] }

/-- C10: for a (group, session_code) pair not present in the stored
crossover mapping — group key absent, or present without the session
code — the block-mode lookup does not fail or signal not-found: it
returns the default pair (UNAIDED for block A, AIDED for block B), and
this result is identical to the one produced for any configuration whose
mapping explicitly assigns those default modes to the pair, so the two
situations are indistinguishable to callers. -/
theorem C10_unknown_pair_returns_default_modes (cfg : StudyConfig) (g : Nat)
    (sc : String)
    (h : cfg.crossover_mapping.lookup ("group_" ++ toString g) = none ∨
      ∃ gm, cfg.crossover_mapping.lookup ("group_" ++ toString g) = some gm ∧
        gm.lookup sc = none) :
    get_block_modes_from_config cfg g sc = ("UNAIDED", "AIDED") ∧
    (∀ (cfg' : StudyConfig) (gm' : SessionMap) (bm' : BlockMap),
      cfg'.crossover_mapping.lookup ("group_" ++ toString g) = some gm' →
      gm'.lookup sc = some bm' →
      bm'.lookup "block_A" = some "UNAIDED" →
      bm'.lookup "block_B" = some "AIDED" →
      get_block_modes_from_config cfg' g sc =
        get_block_modes_from_config cfg g sc) := by
  have hdef : get_block_modes_from_config cfg g sc = ("UNAIDED", "AIDED") := by
    rcases h with hnone | ⟨gm, hgm, hsc⟩
    · simp [get_block_modes_from_config, hnone]
    · simp [get_block_modes_from_config, hgm, hsc]
  refine ⟨hdef, ?_⟩
  intro cfg' gm' bm' hgm' hsc' hba hbb
  rw [hdef]
  simp [get_block_modes_from_config, hgm', hsc', hba, hbb]

/-- C10 witness: the defaults theorem instantiated on an empty stored
mapping at (group 3, S9); the explicit-assignment side is exercised by the
default configuration's mapping at the same result. -/
theorem C10_unknown_pair_witness :
    emptyMapConfig.crossover_mapping.lookup ("group_" ++ toString 3) = none ∧
    (get_block_modes_from_config emptyMapConfig 3 "S9" = ("UNAIDED", "AIDED") ∧
    (∀ (cfg' : StudyConfig) (gm' : SessionMap) (bm' : BlockMap),
      cfg'.crossover_mapping.lookup ("group_" ++ toString 3) = some gm' →
      gm'.lookup "S9" = some bm' →
      bm'.lookup "block_A" = some "UNAIDED" →
      bm'.lookup "block_B" = some "AIDED" →
      get_block_modes_from_config cfg' 3 "S9" =
        get_block_modes_from_config emptyMapConfig 3 "S9")) :=
  ⟨rfl, C10_unknown_pair_returns_default_modes emptyMapConfig 3 "S9" (Or.inl rfl)⟩

end ReaderApp
